import Mathlib

/-!
Verification of the run-orchestration core and the generate route of the
outlight-img2img repository.

The TypeScript source is shallowly embedded:
* JavaScript values flowing through the HTTP layer are modelled by `Json`
  (with `null`/`undefined` conflated, noted where the difference could show),
  JS truthiness by `truthy`, `a || b` by `jsOr`, `a ?? b` by `jsNullish`,
  `a?.b` by `getField`.
* React state updates (`setRuns(prev => ...)`) are pure functions on the
  page state; each update is atomic, as it is in the browser.
* The worker pool of `runGenerator` (src/app/page.tsx) is a transition
  system: JavaScript is single threaded, so the code between two `await`
  points runs atomically; every such segment is one step of `PoolStep`.
* Network responses, the clock, and `JSON.parse` are external inputs and
  appear as parameters.
-/

namespace Outlight

/-! ## A model of JavaScript values -/

/-- JSON-ish JavaScript runtime values.  `null` stands for both JS `null`
and `undefined` (they have the same truthiness, `?.` and `??` behaviour;
only string coercion differs, which we note at its single use site). -/
inductive Json where
  | null : Json
  | bool (b : Bool) : Json
  | num (n : Int) : Json
  | str (s : String) : Json
  | arr (xs : List Json) : Json
  | obj (fields : List (String × Json)) : Json
  deriving Repr

/-- JS truthiness: `undefined`, `null`, `false`, `0`, `""` are falsy;
objects and arrays (even empty) are truthy. -/
def truthy : Json → Bool
  | .null => false
  | .bool b => b
  | .num n => n != 0
  | .str s => s != ""
  | .arr _ => true
  | .obj _ => true

/-- `o?.k`: field access with optional chaining; missing fields and
access on non-objects give `undefined` (our `null`). -/
def getField : Json → String → Json
  | .obj fields, k =>
    match fields.find? (fun f => f.1 == k) with
    | some f => f.2
    | none => .null
  | _, _ => .null

/-- `o?.k1?.k2?...`: chained optional field access. -/
def getPath (j : Json) : List String → Json
  | [] => j
  | k :: ks => getPath (getField j k) ks

/-- `a?.[i]`: array index with optional chaining. -/
def getIndex : Json → Nat → Json
  | .arr xs, i => (xs.get? i).getD .null
  | _, _ => .null

/-- JS `a || b`: `a` if truthy, else `b`. -/
def jsOr (a b : Json) : Json := if truthy a then a else b

/-- JS `a ?? b`: `a` unless it is `null`/`undefined`. -/
def jsNullish (a b : Json) : Json :=
  match a with
  | .null => b
  | v => v

/-- JS string coercion, as used in template literals.  (JS renders
`undefined` as `"undefined"` and `null` as `"null"`; we conflate the two
as `"null"` — the difference only touches error-message text.) -/
def jsToString : Json → String
  | .null => "null"
  | .bool b => if b then "true" else "false"
  | .num n => toString n
  | .str s => s
  | .arr _ => ""
  | .obj _ => "[object Object]"

/-! ## Data model of the image page (src/app/page.tsx) -/

/-- `type RunStatus = "idle" | "running" | "done" | "cancelled" | "error"`. -/
inductive RunStatus where
  | idle | running | done | cancelled | error
  deriving DecidableEq, Repr

/-- `type GenImage = { id, prompt, imageDataUrl }`; `id` is a
`crypto.randomUUID()`, modelled as a `Nat`. -/
structure GenImage where
  id : Nat
  prompt : String
  imageDataUrl : Json
  deriving Repr

/-- The `Run` record of src/app/page.tsx.  UI-only fields (`modelId`,
`modelNameDisplay`, `productId`, `productName`, `referenceUrl`,
`selectedIdx`) are omitted; they are never read by the orchestration
logic the claims are about.  The `AbortController` is modelled by its
observable signal state `aborted` (set exactly when `controller.abort()`
runs). -/
structure Run where
  id : Nat
  name : String
  startedAt : Nat
  prompts : List String
  status : RunStatus
  error : Option String
  debug : Json
  images : List GenImage
  activeIdx : Nat
  progressDone : Nat
  progressTotal : Nat
  speed : Nat
  aborted : Bool
  deriving Repr

/-- Body of the `pushImage` closure in `runGenerator`:
`images := [...r.images, img]; activeIdx := images.length === 1 ? 0 : r.activeIdx`. -/
def pushImageRun (img : GenImage) (r : Run) : Run :=
  let images := r.images ++ [img]
  let activeIdx := if images.length == 1 then 0 else r.activeIdx
  { r with images := images, activeIdx := activeIdx }

/-- Body of the `incProgress` closure: `done := r.progress.done + 1`,
total unchanged. -/
def incProgressRun (r : Run) : Run :=
  { r with progressDone := r.progressDone + 1 }

/-- Body of the `setError` closure:
`{ ...r, status: "error", error: message, debug: debug ?? null }`. -/
def setErrorRun (message : String) (debug : Json) (r : Run) : Run :=
  { r with status := .error, error := some message, debug := debug }

/-- Body of the final `setRuns` of `runGenerator` (pool completion):
`if (r.status === "running") return { ...r, status: "done" }; return r;`. -/
def finishPoolRun (r : Run) : Run :=
  if r.status = .running then { r with status := .done } else r

/-- All the `setRuns` closures share this shape:
`prevRuns.map(r => r.id !== runId ? r : f(r))`. -/
def updateRun (runId : Nat) (f : Run → Run) (runs : List Run) : List Run :=
  runs.map fun r => if r.id == runId then f r else r

/-- Page-level state: the `runs` and `activeRunId` React states. -/
structure PageState where
  runs : List Run
  activeRunId : Option Nat
  deriving Repr

/-- `cancelRun(runId)`:
`setRuns(prev => prev.map(r => { if (r.id !== runId) return r;`
`r.controller?.abort(); return { ...r, status: "cancelled" }; }))`.
The second component lists the ids whose controllers were aborted by this
operation (the observable side effect of `controller.abort()`). -/
def cancelRun (runId : Nat) (st : PageState) : PageState × List Nat :=
  ({ st with
      runs := st.runs.map fun r =>
        if r.id == runId then { r with aborted := true, status := .cancelled } else r },
   (st.runs.filter (fun r => r.id == runId)).map (·.id))

/-- `deleteRun(runId)`:
`const next = prev.filter(r => r.id !== runId);`
`if (activeRunId === runId) setActiveRunId(next[0]?.id ?? null);`
No `abort()` call occurs anywhere in `deleteRun`, hence the empty effect
list. -/
def deleteRun (runId : Nat) (st : PageState) : PageState × List Nat :=
  let next := st.runs.filter fun r => !(r.id == runId)
  let active :=
    if st.activeRunId = some runId then
      match next.head? with
      | some r => some r.id
      | none => none
    else st.activeRunId
  ({ runs := next, activeRunId := active }, [])

/-- Head of `[...prev].sort((a, b) => a.startedAt - b.startedAt)`:
JS sort is stable, so the head of the sorted array is the first element
attaining the minimal `startedAt`, which is what this fold computes. -/
def oldestRun (r0 : Run) (rest : List Run) : Run :=
  rest.foldl (fun acc r => if r.startedAt < acc.startedAt then r else acc) r0

/-- The eviction `setRuns` at the start of `onGenerateNewRun`:
`if (prev.length < 3) return prev;` — otherwise abort the oldest run's
controller and filter it out.  Second component: ids aborted. -/
def evictIfFull (runs : List Run) : List Run × List Nat :=
  if runs.length < 3 then (runs, [])
  else
    match runs with
    | [] => (runs, [])
    | r0 :: rest =>
      let oldest := oldestRun r0 rest
      (runs.filter fun r => !(r.id == oldest.id), [oldest.id])

/-- The fresh `Run` object that `onGenerateNewRun` builds (`newRun`).
`newId` models `crypto.randomUUID()`, `now` models `Date.now()`;
`runName` is the computed `Run #n` label. -/
def mkNewRun (newId : Nat) (runName : String) (now : Nat)
    (promptLines : List String) (speed : Nat) : Run :=
  { id := newId
    name := runName
    startedAt := now
    prompts := promptLines
    status := .running
    error := none
    debug := .null
    images := []
    activeIdx := 0
    progressDone := 0
    progressTotal := promptLines.length
    speed := speed
    aborted := false }

/-- `onGenerateNewRun` up to the `void runGenerator(newRun)` call:
`const ref = referenceUrl || ""; if (!ref || promptLines.length === 0) return;`
then evict-if-full, append `newRun`, select it.  The guard's early
`return` yields the state unchanged and surfaces nothing to the caller.
Second component: ids aborted. -/
def onGenerateNewRun (referenceUrl : String) (promptLines : List String)
    (newId : Nat) (runName : String) (now : Nat) (speed : Nat)
    (st : PageState) : PageState × List Nat :=
  if referenceUrl == "" || promptLines.length == 0 then (st, [])
  else
    let ev := evictIfFull st.runs
    let newRun := mkNewRun newId runName now promptLines speed
    ({ runs := ev.1 ++ [newRun], activeRunId := some newId }, ev.2)

/-! ## The worker pool of `runGenerator` as a transition system

`runGenerator` spawns `Math.max(1, Math.min(3, run.speed))` copies of the
`worker` async closure over one shared `cursor`.  JavaScript interleaves
the workers only at `await` points, so each of the following code
segments executes atomically:

* claim: `const idx = cursor; if (idx >= total) return; cursor++;` and
  start the `fetch` (there is no `await` between reading and
  incrementing `cursor`, which is why a claim is atomic);
* deliver (after `await fetch` / `await res.json()` resolves):
  `!res.ok ? (setError(...); incProgress())` or
  `(pushImage(...); incProgress())`, then loop back to claim;
* throw (the `fetch` or `res.json()` rejects — abort or transport
  error): `catch` block runs `setError(msg)` and the worker `return`s.

Since each worker-level `setRuns` only rewrites the run with the pool's
own id (`updateRun`), we let the pool act on that single `Run` record
via the `...Run` bodies above; `updateRun_eq` below connects the two
levels. -/

/-- What one `/api/generate` request for prompt index `i` comes back as.
`ok`/`fail` carry the parsed response body (`json`); `exn` is a rejected
promise (`e.name === "AbortError"` distinguished, plus `e.message`). -/
inductive Outcome where
  | ok (json : Json)
  | fail (json : Json)
  | exn (isAbort : Bool) (message : Option String)
  deriving Repr

/-- The state of one spawned worker:  between claims (`ready`), awaiting
the request for index `i` (`inflight i`), returned after draining the
cursor (`exited`), or returned from the `catch` block (`crashed`). -/
inductive WStatus where
  | ready
  | inflight (i : Nat)
  | exited
  | crashed
  deriving DecidableEq, Repr

/-- Pool state: the shared `cursor`, the spawned workers (order is
immaterial, hence a multiset), and the pool's run.  `delivered` and
`dropped` are specification-only histories: the prompt indices for which
an outcome was reported (in arrival order), and the indices claimed by a
worker that then threw. -/
structure PoolState where
  cursor : Nat
  workers : Multiset WStatus
  run : Run
  delivered : List Nat
  dropped : List Nat

/-- The worker's failure message: `json.error || "Generation failed"`. -/
def failMessage (json : Json) : String :=
  jsToString (jsOr (getField json "error") (.str "Generation failed"))

/-- The worker's catch-block message:
`e.name === "AbortError" ? "Run cancelled" : e.message || "Request failed"`. -/
def exnMessage (isAbort : Bool) (message : Option String) : String :=
  if isAbort then "Run cancelled"
  else match message with
    | some m => if m = "" then "Request failed" else m
    | none => "Request failed"

/-- One atomic segment of one worker of `runGenerator`; `resp i` is what
the request for prompt index `i` results in (each index is requested at
most once, so a per-index function is general).  `imgId` models the
fresh `crypto.randomUUID()` of `pushImage`. -/
inductive PoolStep (resp : Nat → Outcome) (total : Nat) :
    PoolState → PoolState → Prop where
  | claim (s : PoolState) (rest : Multiset WStatus)
      (hw : s.workers = .ready ::ₘ rest) (hc : s.cursor < total) :
      PoolStep resp total s
        { s with cursor := s.cursor + 1,
                 workers := .inflight s.cursor ::ₘ rest }
  | drain (s : PoolState) (rest : Multiset WStatus)
      (hw : s.workers = .ready ::ₘ rest) (hc : total ≤ s.cursor) :
      PoolStep resp total s { s with workers := .exited ::ₘ rest }
  | deliverOk (s : PoolState) (rest : Multiset WStatus) (i imgId : Nat)
      (json : Json)
      (hw : s.workers = .inflight i ::ₘ rest) (hr : resp i = .ok json) :
      PoolStep resp total s
        { s with workers := .ready ::ₘ rest,
                 run := incProgressRun (pushImageRun
                   ⟨imgId, s.run.prompts.getD i "", getField json "imageDataUrl"⟩ s.run),
                 delivered := s.delivered ++ [i] }
  | deliverFail (s : PoolState) (rest : Multiset WStatus) (i : Nat)
      (json : Json)
      (hw : s.workers = .inflight i ::ₘ rest) (hr : resp i = .fail json) :
      PoolStep resp total s
        { s with workers := .ready ::ₘ rest,
                 run := incProgressRun (setErrorRun (failMessage json)
                   (jsNullish (getField json "debug") .null) s.run),
                 delivered := s.delivered ++ [i] }
  | throwExn (s : PoolState) (rest : Multiset WStatus) (i : Nat)
      (isAbort : Bool) (message : Option String)
      (hw : s.workers = .inflight i ::ₘ rest)
      (hr : resp i = .exn isAbort message) :
      PoolStep resp total s
        { s with workers := .crashed ::ₘ rest,
                 run := setErrorRun (exnMessage isAbort message) .null s.run,
                 dropped := s.dropped ++ [i] }

/-- Zero or more pool steps. -/
def PoolReach (resp : Nat → Outcome) (total : Nat) : PoolState → PoolState → Prop :=
  Relation.ReflTransGen (PoolStep resp total)

/-- The initial pool state of `runGenerator run`:
`let cursor = 0; const total = run.prompts.length;`
`const parallel = Math.max(1, Math.min(3, run.speed));` workers spawned. -/
def poolInit (run : Run) : PoolState :=
  { cursor := 0
    workers := Multiset.replicate (Nat.max 1 (Nat.min 3 run.speed)) .ready
    run := run
    delivered := []
    dropped := [] }

/-- `await Promise.all(workers)` has resolved: every worker returned,
either by draining the cursor or from its catch block. -/
def allExited (s : PoolState) : Prop :=
  ∀ w ∈ s.workers, w = WStatus.exited ∨ w = WStatus.crashed

/-- Indices currently being requested by some worker. -/
def inflights (ws : Multiset WStatus) : Multiset Nat :=
  ws.filterMap fun w =>
    match w with
    | .inflight i => some i
    | _ => none

/-- `updateRun` really is "apply `f` to the run with this id": the run
with `runId` is rewritten by `f` and every other run is untouched. -/
theorem updateRun_eq (runId : Nat) (f : Run → Run) (runs : List Run) :
    updateRun runId f runs =
      runs.map fun r => if r.id == runId then f r else r := rfl

/-! ### Invariants of the pool -/

/-- The inductive invariant of the worker pool.  `perm` is the heart:
the reported, in-flight and thrown-away indices together are exactly the
claimed prefix `[0, cursor)` of the index space, each exactly once. -/
structure PoolInv (total : Nat) (s : PoolState) : Prop where
  cursor_le : s.cursor ≤ total
  perm : (s.delivered : Multiset Nat) + inflights s.workers + (s.dropped : Multiset Nat)
           = Multiset.range s.cursor
  progress : s.run.progressDone = s.delivered.length
  running_clean : s.run.status = .running → s.dropped = []
  crashed_error : WStatus.crashed ∈ s.workers → s.run.status = .error
  exited_drained : WStatus.exited ∈ s.workers → total ≤ s.cursor
  status_cases : s.run.status = .running ∨ s.run.status = .error

theorem inflights_cons_ready (rest : Multiset WStatus) :
    inflights (.ready ::ₘ rest) = inflights rest := by
  simp [inflights, Multiset.filterMap_cons_none]

theorem inflights_cons_exited (rest : Multiset WStatus) :
    inflights (.exited ::ₘ rest) = inflights rest := by
  simp [inflights, Multiset.filterMap_cons_none]

theorem inflights_cons_crashed (rest : Multiset WStatus) :
    inflights (.crashed ::ₘ rest) = inflights rest := by
  simp [inflights, Multiset.filterMap_cons_none]

theorem inflights_cons_inflight (i : Nat) (rest : Multiset WStatus) :
    inflights (.inflight i ::ₘ rest) = i ::ₘ inflights rest := by
  simp [inflights, Multiset.filterMap_cons_some]

theorem inflights_replicate_ready (n : Nat) :
    inflights (Multiset.replicate n .ready) = 0 := by
  induction n with
  | zero => rfl
  | succ n ih => rw [Multiset.replicate_succ, inflights_cons_ready, ih]

theorem inflights_of_allExited (s : PoolState) (h : allExited s) :
    inflights s.workers = 0 := by
  rw [inflights, Multiset.eq_zero_iff_forall_not_mem]
  intro i hi
  obtain ⟨w, hw, hfw⟩ := (Multiset.mem_filterMap _ _).mp hi
  rcases h w hw with h' | h' <;> subst h' <;> simp at hfw

/-- Each pool step preserves the invariant. -/
theorem poolStep_inv {resp : Nat → Outcome} {total : Nat} {s s' : PoolState}
    (hstep : PoolStep resp total s s') (hinv : PoolInv total s) :
    PoolInv total s' := by
  obtain ⟨hcur, hperm, hprog, hclean, hcrash, hexit, hcases⟩ := hinv
  cases hstep with
  | claim rest hw hc =>
    rw [hw, inflights_cons_ready] at hperm
    refine ⟨?_, ?_, ?_, ?_, ?_, ?_, ?_⟩ <;> dsimp only
    · omega
    · rw [inflights_cons_inflight, Multiset.range_succ, ← hperm]
      simp only [← Multiset.singleton_add]
      abel
    · exact hprog
    · exact hclean
    · intro hmem
      rcases Multiset.mem_cons.mp hmem with h | h
      · exact absurd h (by simp)
      · exact hcrash (by rw [hw]; exact Multiset.mem_cons_of_mem h)
    · intro hmem
      rcases Multiset.mem_cons.mp hmem with h | h
      · exact absurd h (by simp)
      · have := hexit (by rw [hw]; exact Multiset.mem_cons_of_mem h)
        omega
    · exact hcases
  | drain rest hw hc =>
    rw [hw, inflights_cons_ready] at hperm
    refine ⟨hcur, ?_, hprog, hclean, ?_, ?_, hcases⟩ <;> dsimp only
    · rwa [inflights_cons_exited]
    · intro hmem
      rcases Multiset.mem_cons.mp hmem with h | h
      · exact absurd h (by simp)
      · exact hcrash (by rw [hw]; exact Multiset.mem_cons_of_mem h)
    · intro _
      exact hc
  | deliverOk rest i imgId json hw hr =>
    rw [hw, inflights_cons_inflight] at hperm
    refine ⟨hcur, ?_, ?_, ?_, ?_, ?_, ?_⟩ <;> dsimp only
    · rw [inflights_cons_ready, ← hperm, ← Multiset.coe_add]
      simp only [Multiset.coe_singleton, ← Multiset.singleton_add]
      abel
    · simp [incProgressRun, pushImageRun, hprog]
    · intro h
      simp only [incProgressRun, pushImageRun] at h
      exact hclean h
    · intro hmem
      simp only [incProgressRun, pushImageRun]
      rcases Multiset.mem_cons.mp hmem with h | h
      · exact absurd h (by simp)
      · exact hcrash (by rw [hw]; exact Multiset.mem_cons_of_mem h)
    · intro hmem
      rcases Multiset.mem_cons.mp hmem with h | h
      · exact absurd h (by simp)
      · exact hexit (by rw [hw]; exact Multiset.mem_cons_of_mem h)
    · simpa [incProgressRun, pushImageRun] using hcases
  | deliverFail rest i json hw hr =>
    rw [hw, inflights_cons_inflight] at hperm
    refine ⟨hcur, ?_, ?_, ?_, ?_, ?_, ?_⟩ <;> dsimp only
    · rw [inflights_cons_ready, ← hperm, ← Multiset.coe_add]
      simp only [Multiset.coe_singleton, ← Multiset.singleton_add]
      abel
    · simp [incProgressRun, setErrorRun, hprog]
    · intro h
      simp [incProgressRun, setErrorRun] at h
    · intro _
      simp [incProgressRun, setErrorRun]
    · intro hmem
      rcases Multiset.mem_cons.mp hmem with h | h
      · exact absurd h (by simp)
      · exact hexit (by rw [hw]; exact Multiset.mem_cons_of_mem h)
    · exact Or.inr (by simp [incProgressRun, setErrorRun])
  | throwExn rest i isAbort message hw hr =>
    rw [hw, inflights_cons_inflight] at hperm
    refine ⟨hcur, ?_, ?_, ?_, ?_, ?_, ?_⟩ <;> dsimp only
    · rw [inflights_cons_crashed, ← hperm, ← Multiset.coe_add]
      simp only [Multiset.coe_singleton, ← Multiset.singleton_add]
      abel
    · simp [setErrorRun, hprog]
    · intro h
      simp [setErrorRun] at h
    · intro _
      simp [setErrorRun]
    · intro hmem
      rcases Multiset.mem_cons.mp hmem with h | h
      · exact absurd h (by simp)
      · exact hexit (by rw [hw]; exact Multiset.mem_cons_of_mem h)
    · exact Or.inr (by simp [setErrorRun])

/-- The invariant holds in the initial pool state of a freshly created
run (status `running`, progress `0/total` with `total` the batch
length). -/
theorem poolInit_inv (run0 : Run) (hst : run0.status = .running)
    (hdone : run0.progressDone = 0) :
    PoolInv run0.prompts.length (poolInit run0) := by
  refine ⟨Nat.zero_le _, ?_, by simpa [poolInit], by simp [poolInit], ?_, ?_,
    Or.inl (by simpa [poolInit])⟩
  · simp [poolInit, inflights_replicate_ready]
  · intro hmem
    have := Multiset.eq_of_mem_replicate hmem
    simp at this
  · intro hmem
    have := Multiset.eq_of_mem_replicate hmem
    simp at this

/-- The invariant holds in every reachable pool state. -/
theorem poolReach_inv {resp : Nat → Outcome} {total : Nat} {s s' : PoolState}
    (hreach : PoolReach resp total s s') (hinv : PoolInv total s) :
    PoolInv total s' := by
  induction hreach with
  | refl => exact hinv
  | tail _ hstep ih => exact poolStep_inv hstep ih

/-- Fields a pool step never changes, plus monotonicity facts: the
prompt list, the progress total and the speed are untouched; images are
only appended (previously accumulated outcomes are retained); the
cursor never decreases; the dropped history only grows; the number of
workers is constant. -/
theorem poolStep_frame {resp : Nat → Outcome} {total : Nat} {s s' : PoolState}
    (hstep : PoolStep resp total s s') :
    s'.run.prompts = s.run.prompts ∧ s'.run.progressTotal = s.run.progressTotal ∧
    s'.run.speed = s.run.speed ∧ (∃ tl, s'.run.images = s.run.images ++ tl) ∧
    s.cursor ≤ s'.cursor ∧ (∃ dl, s'.dropped = s.dropped ++ dl) ∧
    Multiset.card s'.workers = Multiset.card s.workers := by
  cases hstep with
  | claim rest hw hc =>
    refine ⟨rfl, rfl, rfl, ⟨[], by simp⟩, ?_, ⟨[], by simp⟩, ?_⟩ <;> dsimp only
    · omega
    · rw [hw]
      simp
  | drain rest hw hc =>
    refine ⟨rfl, rfl, rfl, ⟨[], by simp⟩, le_refl _, ⟨[], by simp⟩, ?_⟩
    dsimp only
    rw [hw]
    simp
  | deliverOk rest i imgId json hw hr =>
    refine ⟨rfl, rfl, rfl,
      ⟨[⟨imgId, s.run.prompts.getD i "", getField json "imageDataUrl"⟩], ?_⟩,
      le_refl _, ⟨[], by simp⟩, ?_⟩ <;> dsimp only
    · simp [incProgressRun, pushImageRun]
    · rw [hw]
      simp
  | deliverFail rest i json hw hr =>
    refine ⟨rfl, rfl, rfl, ⟨[], ?_⟩, le_refl _, ⟨[], by simp⟩, ?_⟩ <;> dsimp only
    · simp [incProgressRun, setErrorRun]
    · rw [hw]
      simp
  | throwExn rest i isAbort message hw hr =>
    refine ⟨rfl, rfl, rfl, ⟨[], ?_⟩, le_refl _, ⟨_, rfl⟩, ?_⟩ <;> dsimp only
    · simp [setErrorRun]
    · rw [hw]
      simp

/-- `poolStep_frame`, transported along any number of steps. -/
theorem poolReach_frame {resp : Nat → Outcome} {total : Nat} {s s' : PoolState}
    (hreach : PoolReach resp total s s') :
    s'.run.prompts = s.run.prompts ∧ s'.run.progressTotal = s.run.progressTotal ∧
    s'.run.speed = s.run.speed ∧ (∃ tl, s'.run.images = s.run.images ++ tl) ∧
    s.cursor ≤ s'.cursor ∧ (∃ dl, s'.dropped = s.dropped ++ dl) ∧
    Multiset.card s'.workers = Multiset.card s.workers := by
  induction hreach with
  | refl => exact ⟨rfl, rfl, rfl, ⟨[], by simp⟩, le_refl _, ⟨[], by simp⟩, rfl⟩
  | tail _ hstep ih =>
    obtain ⟨h1, h2, h3, ⟨tl, h4⟩, h5, ⟨dl, h6⟩, h7⟩ := ih
    obtain ⟨g1, g2, g3, ⟨tl', g4⟩, g5, ⟨dl', g6⟩, g7⟩ := poolStep_frame hstep
    exact ⟨g1.trans h1, g2.trans h2, g3.trans h3, ⟨tl ++ tl', by rw [g4, h4]; simp⟩,
      le_trans h5 g5, ⟨dl ++ dl', by rw [g6, h6]; simp⟩, g7.trans h7⟩

/-! ## The generate route (src/app/api/generate/route.ts)

External effects are inputs: the Supabase lookup result, the provider
HTTP responses, the elapsed-time clock readings and `JSON.parse`. -/

/-! A small `JSON.stringify` (escaping of special characters inside
strings is omitted; the result is only ever embedded in a diagnostic
message). -/

mutual

/-- `JSON.stringify` on one value. -/
def stringify : Json → String
  | .null => "null"
  | .bool b => if b then "true" else "false"
  | .num n => toString n
  | .str s => "\"" ++ s ++ "\""
  | .arr xs => "[" ++ stringifyItems xs ++ "]"
  | .obj fs => "\x7b" ++ stringifyFields fs ++ "\x7d"

def stringifyItems : List Json → String
  | [] => ""
  | [x] => stringify x
  | x :: y :: xs => stringify x ++ "," ++ stringifyItems (y :: xs)

def stringifyFields : List (String × Json) → String
  | [] => ""
  | [(k, v)] => "\"" ++ k ++ "\":" ++ stringify v
  | (k, v) :: g :: fs => "\"" ++ k ++ "\":" ++ stringify v ++ "," ++ stringifyFields (g :: fs)

end

/-- The elements of a JS array value; JS would throw when iterating a
truthy non-array (`for...of`) — theorems about code that iterates guard
that case by hypothesis. -/
def asArrList : Json → List Json
  | .arr xs => xs
  | _ => []

/-- `x.length` as used in `safety.length` / `urls.length`. -/
def jsLength : Json → Nat
  | .arr xs => xs.length
  | .str s => s.length
  | _ => 0

/-- JS strict `x === "lit"` for a runtime value against a string literal. -/
def isStr (j : Json) (s : String) : Bool :=
  match j with
  | .str t => t == s
  | _ => false

/-- JS strict `x !== 200` (negated): true iff the value is the number 200. -/
def isCode200 : Json → Bool
  | .num n => n == 200
  | _ => false

/-- `modelId.startsWith("seedream")` (the route treats `modelId` as a
string; theorems instantiate it as one). -/
def jsStartsWith (j : Json) (p : String) : Bool :=
  match j with
  | .str s => s.startsWith p
  | _ => false

/-- What a route handler replies: `NextResponse.json({imageDataUrl})`,
or `NextResponse.json({error, debug?}, {status})`. -/
inductive RouteRes where
  | okRes (imageDataUrl : Json)
  | errRes (error : Json) (debug : Option Json) (status : Nat)
  deriving Repr

/-- One iteration's external data for the Seedream poll loop: the value
of `Date.now() - started` at the `while` condition check, and the
`recordInfo` response that the iteration's fetch would produce. -/
structure QueryStep where
  elapsed : Nat
  resOk : Bool
  json : Json
  deriving Repr

/-- Result of running the poll loop against a finite schedule;
`outOfSched` means the schedule was exhausted with the loop still
pending (the real loop would keep polling). -/
inductive PollOut where
  | res (r : RouteRes)
  | outOfSched
  deriving Repr

/-- The Supabase `.single()` outcome for the product lookup. -/
inductive DbSingle where
  | dbErr (message : String)
  | row (image_url : Json)
  deriving Repr

/-- Result of `fetchImageAsBase64` on the reference URL: a thrown error
(non-ok response), or the normalized mime type it returns. -/
inductive RefFetch where
  | fetchFail (message : String)
  | fetchOk (mime : String)
  deriving Repr

namespace GenRoute

/-- `getReferenceUrl(productId, customUrl)` of route.ts; `db` is the
Supabase single-row lookup outcome.  `Except.error` is the thrown
`Error`'s message. -/
def getReferenceUrl (productId customUrl : Json) (db : DbSingle) :
    Except String Json :=
  if truthy customUrl then .ok customUrl
  else if !(truthy productId) then .error "Reference image URL required"
  else
    match db with
    | .dbErr m => .error ("DB error: " ++ m)
    | .row img => if truthy img then .ok img else .error "No image_url found for product"

/-! ### Gemini artifact extraction (`extractGeminiImage`) -/

/-- `p?.inline_data?.data ?? p?.inlineData?.data`. -/
def getInlineData (p : Json) : Json :=
  jsNullish (getPath p ["inline_data", "data"]) (getPath p ["inlineData", "data"])

/-- `p?.inline_data?.mime_type ?? p?.inlineData?.mime_type ?? p?.inlineData?.mimeType ?? "image/png"`. -/
def getInlineMime (p : Json) : Json :=
  jsNullish (getPath p ["inline_data", "mime_type"])
    (jsNullish (getPath p ["inlineData", "mime_type"])
      (jsNullish (getPath p ["inlineData", "mimeType"]) (.str "image/png")))

/-- `p?.file_data?.file_uri ?? p?.fileData?.file_uri ?? p?.fileData?.fileUri`. -/
def getFileUri (p : Json) : Json :=
  jsNullish (getPath p ["file_data", "file_uri"])
    (jsNullish (getPath p ["fileData", "file_uri"]) (getPath p ["fileData", "fileUri"]))

/-- What `extractGeminiImage` returns: exactly one of the three mutually
exclusive fields of the source's result object is set (`dataUrl` and
`url` are always truthy when set, so the route's cascade of `if`s
observes exactly this case split). -/
inductive ExtractOut where
  | dataUrl (v : Json)
  | urlOut (u : Json)
  | noImage (reason : String) (debug : Json)
  deriving Repr

/-- Loop 1: `for (const p of parts) { const d = getInlineData(p); if (d) return {dataUrl: \x60data:${mime};base64,${d}\x60}; }`. -/
def scanInline : List Json → Option Json
  | [] => none
  | p :: ps =>
    let d := getInlineData p
    if truthy d then
      some (.str ("data:" ++ jsToString (getInlineMime p) ++ ";base64," ++ jsToString d))
    else scanInline ps

/-- Loop 2: first part with a truthy file uri. -/
def scanFile : List Json → Option Json
  | [] => none
  | p :: ps =>
    let uri := getFileUri p
    if truthy uri then some uri else scanFile ps

/-- `m?.mimeType?.startsWith("image/")` (falsy mime → no call, false). -/
def mimeStartsImage : Json → Bool
  | .str s => s.startsWith "image/"
  | _ => false

/-- Inner loop of loop 3, over one part's `media` array. -/
def scanMediaItems : List Json → Option ExtractOut
  | [] => none
  | m :: ms =>
    if truthy (getField m "data") && mimeStartsImage (getField m "mimeType") then
      some (.dataUrl (.str ("data:" ++ jsToString (getField m "mimeType") ++ ";base64,"
        ++ jsToString (getField m "data"))))
    else if truthy (getField m "url") then some (.urlOut (getField m "url"))
    else scanMediaItems ms

/-- `const media = p?.media; if (Array.isArray(media)) ...`. -/
def mediaOf (p : Json) : List Json :=
  match getField p "media" with
  | .arr ms => ms
  | _ => []

/-- Loop 3: scan each part's media array. -/
def scanMedia : List Json → Option ExtractOut
  | [] => none
  | p :: ps =>
    match scanMediaItems (mediaOf p) with
    | some r => some r
    | none => scanMedia ps

/-- Loop 4: `const du = p?.data_uri || p?.dataUri; if (du && /^data:image\x5c//.test(du)) return {dataUrl: du};`. -/
def scanDataUri : List Json → Option Json
  | [] => none
  | p :: ps =>
    let du := jsOr (getField p "data_uri") (getField p "dataUri")
    if truthy du && (jsToString du).startsWith "data:image/" then some du
    else scanDataUri ps

/-- `json?.candidates?.[0]?.finishReason || json?.promptFeedback?.blockReason || ""`. -/
def finishReasonOf (json : Json) : Json :=
  jsOr (getField (getIndex (getField json "candidates") 0) "finishReason")
    (jsOr (getPath json ["promptFeedback", "blockReason"]) (.str ""))

/-- `parts.map(p => p?.text).filter(Boolean).slice(0, 1)[0]`. -/
def firstTruthyText : List Json → Json
  | [] => .null
  | p :: ps =>
    let t := getField p "text"
    if truthy t then t else firstTruthyText ps

/-- The fall-through diagnostic text of `extractGeminiImage` (the
`reason` built after all four probes failed), factored out verbatim. -/
def noImageReason (json : Json) (parts : List Json) : String :=
  let finishReason := finishReasonOf json
  let safety := jsOr (getPath json ["promptFeedback", "safetyRatings"]) (.arr [])
  let anyText := firstTruthyText parts
  let safeSummary := if jsLength safety ≠ 0 then " safety=" ++ stringify safety else ""
  "No image parts found. finishReason=" ++ jsToString (jsOr finishReason (.str "n/a"))
    ++ safeSummary
    ++ (if truthy anyText then
          " text=\"" ++ (jsToString anyText).take 140 ++ "...\""
        else "")

/-- The compact debug payload returned with the fall-through reason. -/
def noImageDebug (json partsJ : Json) : Json :=
  Json.obj [
    ("parts", partsJ),
    ("finishReason", getField (getIndex (getField json "candidates") 0) "finishReason"),
    ("promptFeedback", getField json "promptFeedback")]

/-- `extractGeminiImage(json)` of route.ts: the four shape probes in
their fixed order, first match wins, otherwise the no-image reason and
compact debug payload. -/
def extractGeminiImage (json : Json) : ExtractOut :=
  let finishReason := finishReasonOf json
  let candidates := jsOr (getField json "candidates") (.arr [])
  match candidates with
  | .arr (c0 :: _) =>
    let partsJ := jsOr (getPath c0 ["content", "parts"]) (.arr [])
    let parts := asArrList partsJ
    match scanInline parts with
    | some v => .dataUrl v
    | none =>
      match scanFile parts with
      | some uri => .urlOut uri
      | none =>
        match scanMedia parts with
        | some r => r
        | none =>
          match scanDataUri parts with
          | some du => .dataUrl du
          | none => .noImage (noImageReason json parts) (noImageDebug json partsJ)
  | _ =>
    .noImage ("No candidates (finishReason="
      ++ jsToString (jsOr finishReason (.str "n/a")) ++ ")") .null

/-- Steps 2–3 of the Gemini path of `POST`: the `nbRes.ok` check, then
extraction; `{error: out.reason || "Gemini returned no image data",
debug: out.debug ?? null}` with status 502 when no artifact is found. -/
def geminiBranch (nbResOk : Bool) (nbStatus : Nat) (nbJson : Json) : RouteRes :=
  if !nbResOk then
    .errRes (jsOr (getPath nbJson ["error", "message"])
        (.str ("Gemini request failed (" ++ toString nbStatus ++ ")")))
      none (if nbStatus ≠ 0 then nbStatus else 502)
  else
    match extractGeminiImage nbJson with
    | .dataUrl v => .okRes v
    | .urlOut u => .okRes u
    | .noImage reason debug =>
      .errRes (jsOr (.str reason) (.str "Gemini returned no image data"))
        (some (jsNullish debug .null)) 502

/-! ### Seedream (KIE) branch -/

/-- The `createTask` request body built by the Seedream branch. -/
def seedreamPayload (prompt referenceUrl : Json) (opts : Json) : Json :=
  Json.obj [
    ("model", .str "bytedance/seedream-v4-edit"),
    ("callBackUrl", .str ""),
    ("input", Json.obj [
      ("prompt", prompt),
      ("image_urls", .arr [referenceUrl]),
      ("image_size", jsOr (getField opts "image_size") (.str "square")),
      ("image_resolution", jsOr (getField opts "image_resolution") (.str "1K")),
      ("max_images", jsOr (getField opts "max_images") (.num 1)),
      ("seed", jsNullish (getField opts "seed") .null)])]

/-- The `while (Date.now() - started < MAX_MS)` poll loop over
`recordInfo`.  `parse` models `JSON.parse` (`none` = throw); `sched`
supplies each iteration's clock reading and fetch response; the second
result component counts status fetches performed (each iteration
unconditionally sleeps 2000 ms and fetches — the loop reads no
cancellation signal; none is in scope in the route). -/
def seedreamPoll (parse : Json → Option Json) :
    List QueryStep → Json → Nat → PollOut × Nat
  | [], _, fetches => (.outOfSched, fetches)
  | q :: rest, lastState, fetches =>
    if q.elapsed < 180000 then
      let qJson := q.json
      if !q.resOk || !(isCode200 (getField qJson "code")) then
        (.res (.errRes (jsOr (getField qJson "message")
          (jsOr (getField qJson "msg") (.str "Seedream query failed"))) none 502),
         fetches + 1)
      else
        let lastState' := getPath qJson ["data", "state"]
        if isStr lastState' "success" then
          let rj := jsOr (getPath qJson ["data", "resultJson"]) (.str "\x7b\x7d")
          match parse rj with
          | none =>
            (.res (.errRes (.str "Malformed Seedream resultJson") none 502), fetches + 1)
          | some parsed =>
            let urls := asArrList (jsOr (getField parsed "resultUrls") (.arr []))
            if urls.length == 0 then
              (.res (.errRes (.str "Seedream returned no result URLs") none 502),
               fetches + 1)
            else
              let resultUrl := urls.headD .null
              if truthy resultUrl then (.res (.okRes resultUrl), fetches + 1)
              else
                (.res (.errRes (.str ("Seedream generation timed out (last state: "
                  ++ jsToString lastState' ++ ")")) none 504), fetches + 1)
        else if isStr lastState' "fail" then
          (.res (.errRes (jsOr (getPath qJson ["data", "failMsg"])
            (.str "Seedream reported failure")) none 502), fetches + 1)
        else seedreamPoll parse rest lastState' (fetches + 1)
    else
      (.res (.errRes (.str ("Seedream generation timed out (last state: "
        ++ jsToString lastState ++ ")")) none 504), fetches)

/-- The whole Seedream branch of `POST`: key check, `createTask`
handling, then the poll loop.  Second component counts provider
requests issued (`createTask` plus status fetches). -/
def seedreamBranch (parse : Json → Option Json) (kieKey : Bool)
    (createResOk : Bool) (createJson : Json) (sched : List QueryStep) :
    PollOut × Nat :=
  if !kieKey then (.res (.errRes (.str "Seedream API key missing") none 500), 0)
  else if !createResOk || !(isCode200 (getField createJson "code")) then
    (.res (.errRes (jsOr (getField createJson "message")
      (jsOr (getField createJson "msg") (.str "Seedream createTask failed"))) none 502), 1)
  else if !(truthy (getPath createJson ["data", "taskId"])) then
    (.res (.errRes (.str "Seedream taskId missing") none 502), 1)
  else
    let p := seedreamPoll parse sched (.str "waiting") 0
    (p.1, 1 + p.2)

/-- The `POST` handler: body validation, reference resolution, then the
provider branch.  Thrown errors surface through the outer `catch` as
status-500 responses.  The second component counts provider requests;
`none` propagates an exhausted poll schedule. -/
def generatePOST (modelId prompt productId customUrl : Json) (db : DbSingle)
    (parse : Json → Option Json) (kieKey : Bool) (createResOk : Bool)
    (createJson : Json) (sched : List QueryStep) (nbKey : Bool)
    (refFetch : RefFetch) (nbResOk : Bool) (nbStatus : Nat) (nbJson : Json) :
    Option RouteRes × Nat :=
  if !(truthy prompt) || !(truthy modelId) then
    (some (.errRes (.str "Missing modelId or prompt") none 400), 0)
  else
    match getReferenceUrl productId customUrl db with
    | .error e => (some (.errRes (.str e) none 500), 0)
    | .ok _referenceUrl =>
      if jsStartsWith modelId "seedream" then
        let out := seedreamBranch parse kieKey createResOk createJson sched
        match out.1 with
        | .res r => (some r, out.2)
        | .outOfSched => (none, out.2)
      else
        if !nbKey then
          (some (.errRes (.str "Nano Banana API key missing") none 500), 0)
        else
          match refFetch with
          | .fetchFail m => (some (.errRes (.str m) none 500), 0)
          | .fetchOk mime =>
            if !(mime.startsWith "image/") then
              (some (.errRes (.str ("Reference URL is not an image (mime="
                ++ mime ++ ")")) none 400), 0)
            else (some (geminiBranch nbResOk nbStatus nbJson), 1)

end GenRoute

/-! The Seedream branch of the second generate-route variant
(src/unnamed/part_002), translated independently of `GenRoute`. -/

namespace GenRouteV2

/-- The `createTask` request body built by part_002's Seedream branch. -/
def seedreamPayload (prompt referenceUrl : Json) (opts : Json) : Json :=
  Json.obj [
    ("model", .str "bytedance/seedream-v4-edit"),
    ("callBackUrl", .str ""),
    ("input", Json.obj [
      ("prompt", prompt),
      ("image_urls", .arr [referenceUrl]),
      ("image_size", jsOr (getField opts "image_size") (.str "square")),
      ("image_resolution", jsOr (getField opts "image_resolution") (.str "1K")),
      ("max_images", jsOr (getField opts "max_images") (.num 1)),
      ("seed", jsNullish (getField opts "seed") .null)])]

/-- part_002's poll loop (`while (Date.now() - started < MAX_MS) ...`). -/
def seedreamPoll (parse : Json → Option Json) :
    List QueryStep → Json → Nat → PollOut × Nat
  | [], _, fetches => (.outOfSched, fetches)
  | q :: rest, lastState, fetches =>
    if q.elapsed < 180000 then
      let qJson := q.json
      if !q.resOk || !(isCode200 (getField qJson "code")) then
        (.res (.errRes (jsOr (getField qJson "message")
          (jsOr (getField qJson "msg") (.str "Seedream query failed"))) none 502),
         fetches + 1)
      else
        let lastState' := getPath qJson ["data", "state"]
        if isStr lastState' "success" then
          let rj := jsOr (getPath qJson ["data", "resultJson"]) (.str "\x7b\x7d")
          match parse rj with
          | none =>
            (.res (.errRes (.str "Malformed Seedream resultJson") none 502), fetches + 1)
          | some parsed =>
            let urls := asArrList (jsOr (getField parsed "resultUrls") (.arr []))
            if urls.length == 0 then
              (.res (.errRes (.str "Seedream returned no result URLs") none 502),
               fetches + 1)
            else
              let resultUrl := urls.headD .null
              if truthy resultUrl then (.res (.okRes resultUrl), fetches + 1)
              else
                (.res (.errRes (.str ("Seedream generation timed out (last state: "
                  ++ jsToString lastState' ++ ")")) none 504), fetches + 1)
        else if isStr lastState' "fail" then
          (.res (.errRes (jsOr (getPath qJson ["data", "failMsg"])
            (.str "Seedream reported failure")) none 502), fetches + 1)
        else seedreamPoll parse rest lastState' (fetches + 1)
    else
      (.res (.errRes (.str ("Seedream generation timed out (last state: "
        ++ jsToString lastState ++ ")")) none 504), fetches)

/-- part_002's whole Seedream branch: key check, `createTask` handling,
then the poll loop. -/
def seedreamBranch (parse : Json → Option Json) (kieKey : Bool)
    (createResOk : Bool) (createJson : Json) (sched : List QueryStep) :
    PollOut × Nat :=
  if !kieKey then (.res (.errRes (.str "Seedream API key missing") none 500), 0)
  else if !createResOk || !(isCode200 (getField createJson "code")) then
    (.res (.errRes (jsOr (getField createJson "message")
      (jsOr (getField createJson "msg") (.str "Seedream createTask failed"))) none 502), 1)
  else if !(truthy (getPath createJson ["data", "taskId"])) then
    (.res (.errRes (.str "Seedream taskId missing") none 502), 1)
  else
    let p := seedreamPoll parse sched (.str "waiting") 0
    (p.1, 1 + p.2)

end GenRouteV2

/-! ## Sample states and concrete executions used by the claim theorems -/

/-- A freshly created two-prompt run at concurrency 1. -/
def sampleRun : Run :=
  { id := 1, name := "Run #1", startedAt := 5, prompts := ["a", "b"],
    status := .running, error := none, debug := .null, images := [],
    activeIdx := 0, progressDone := 0, progressTotal := 2, speed := 1,
    aborted := false }

/-- A run whose pool has completed: terminal status `done`. -/
def doneRun : Run :=
  { sampleRun with id := 2, status := .done, progressDone := 2 }

/-- Responses for a two-prompt batch: index 0 gets a provider error
response, index 1 succeeds. -/
def respC1 : Nat → Outcome := fun i =>
  if i == 0 then .fail (Json.obj [("error", .str "boom")])
  else .ok (Json.obj [("imageDataUrl", .str "u1")])

/-- The final pool state of the concrete `respC1` execution below. -/
def c1End : PoolState :=
  { cursor := 2,
    workers := .exited ::ₘ 0,
    run := incProgressRun (pushImageRun ⟨42, "b", Json.str "u1"⟩
      (incProgressRun (setErrorRun "boom" Json.null sampleRun))),
    delivered := [0, 1],
    dropped := [] }

/-- A complete single-worker execution over `respC1`: the prompt-0
failure is recorded, the worker keeps claiming, prompt 1 still succeeds,
and the pool drains with `progress.done = 2`. -/
theorem c1Trace : PoolReach respC1 2 (poolInit sampleRun) c1End ∧ allExited c1End ∧
    c1End.run.progressDone = 2 ∧ c1End.delivered = [0, 1] ∧
    c1End.run.status = RunStatus.error ∧ c1End.run.error = some "boom" ∧
    c1End.run.progressTotal = 2 ∧ c1End.run.images.length = 1 := by
  refine ⟨?_, ?_, rfl, rfl, rfl, rfl, rfl, rfl⟩
  · refine Relation.ReflTransGen.head
      (PoolStep.claim _ (0 : Multiset WStatus) rfl (by decide)) ?_
    refine Relation.ReflTransGen.head
      (PoolStep.deliverFail _ (0 : Multiset WStatus) 0
        (Json.obj [("error", Json.str "boom")]) rfl rfl) ?_
    refine Relation.ReflTransGen.head
      (PoolStep.claim _ (0 : Multiset WStatus) rfl (by decide)) ?_
    refine Relation.ReflTransGen.head
      (PoolStep.deliverOk _ (0 : Multiset WStatus) 1 42
        (Json.obj [("imageDataUrl", Json.str "u1")]) rfl rfl) ?_
    refine Relation.ReflTransGen.head
      (PoolStep.drain _ (0 : Multiset WStatus) rfl (by decide)) ?_
    exact Relation.ReflTransGen.refl
  · intro w hw
    simp only [c1End, Multiset.mem_cons, Multiset.not_mem_zero, or_false] at hw
    exact Or.inl hw

/-! ## Claim C1 -/

/-- C1 counterexample.  The claim says a per-prompt provider `Failure`
"leaves the Run's status field unchanged at running".  The worker's
failure path is `setError(json.error || "Generation failed", ...);
incProgress(); continue;` and `setError` unconditionally sets
`status: "error"`: on a concrete running run, delivering a failure
outcome moves the status from `running` to `error`. -/
theorem c1_counterexample :
    sampleRun.status = RunStatus.running ∧
    (incProgressRun (setErrorRun "Generation failed" Json.null sampleRun)).status
      = RunStatus.error ∧
    (incProgressRun (setErrorRun "Generation failed" Json.null sampleRun)).status
      ≠ RunStatus.running := by
  refine ⟨rfl, rfl, by decide⟩

/-- C1 amended: delivery of a per-prompt provider `Failure` records the
failure message and diagnostic on the Run (latest failure wins),
increments `progress.done`, and sets the Run's status to `error` (it
does not stay `running`); the images accumulated so far and the total
are untouched, and the batch keeps going until the pool drains — in the
concrete `respC1` execution the later prompt is still claimed and
delivered after the failure, ending with `progress.done = total = 2`. -/
theorem c1_per_prompt_failure (r : Run) (m m' : String) (d d' : Json) :
    ((incProgressRun (setErrorRun m d r)).error = some m ∧
     (incProgressRun (setErrorRun m d r)).debug = d ∧
     (incProgressRun (setErrorRun m d r)).status = RunStatus.error ∧
     (incProgressRun (setErrorRun m d r)).progressDone = r.progressDone + 1 ∧
     (incProgressRun (setErrorRun m d r)).images = r.images ∧
     (incProgressRun (setErrorRun m d r)).progressTotal = r.progressTotal) ∧
    (setErrorRun m' d' (setErrorRun m d r)).error = some m' ∧
    (∃ s, PoolReach respC1 2 (poolInit sampleRun) s ∧ allExited s ∧
      s.run.progressDone = 2 ∧ s.delivered = [0, 1] ∧
      s.run.status = RunStatus.error ∧ s.run.error = some "boom") := by
  refine ⟨⟨rfl, rfl, rfl, rfl, rfl, rfl⟩, rfl, ?_⟩
  obtain ⟨h1, h2, h3, h4, h5, h6, -⟩ := c1Trace
  exact ⟨c1End, h1, h2, h3, h4, h5, h6⟩

/-! ## Claim C2 -/

/-- C2 counterexample.  The claim says a terminal status is never left
and "cancelling an already-done Run is a no-op".  `cancelRun` maps the
run unconditionally to `{ ...r, status: "cancelled" }`: cancelling a
`done` run moves its status from `done` to `cancelled`. -/
theorem c2_counterexample :
    doneRun.status = RunStatus.done ∧
    ((cancelRun 2 { runs := [doneRun], activeRunId := none }).1.runs.map Run.status)
      = [RunStatus.cancelled] := by
  exact ⟨rfl, rfl⟩

/-- C2 amended: only the pool-completion transition is latched — it
turns `running` into `done` and leaves any other status unchanged — but
external cancellation (`cancelRun`) sets `cancelled` regardless of the
current status (so `done → cancelled` happens), and a worker's error
report (`setError`) sets `error` regardless of the current status (so
`cancelled → error` happens when an aborted request's rejection is
reported). -/
theorem c2_transitions (st : PageState) (runId : Nat) (r : Run) (m : String) (d : Json) :
    (r.status ≠ RunStatus.running → finishPoolRun r = r) ∧
    (r.status = RunStatus.running → (finishPoolRun r).status = RunStatus.done) ∧
    (r ∈ st.runs → r.id = runId →
      { r with aborted := true, status := RunStatus.cancelled }
        ∈ (cancelRun runId st).1.runs) ∧
    (setErrorRun m d r).status = RunStatus.error := by
  refine ⟨?_, ?_, ?_, rfl⟩
  · intro h
    rw [finishPoolRun, if_neg h]
  · intro h
    simp [finishPoolRun, h]
  · intro hr hid
    exact List.mem_map.mpr ⟨r, hr, by simp [hid]⟩

/-- Witness for `c2_transitions` at a concrete input: pool completion on
an already-`done` run is the identity, and cancelling the same `done`
run really produces a `cancelled` copy in the registry. -/
theorem c2_transitions_witness :
    finishPoolRun doneRun = doneRun ∧
    { doneRun with aborted := true, status := RunStatus.cancelled }
      ∈ (cancelRun 2 { runs := [doneRun], activeRunId := none }).1.runs := by
  refine ⟨(c2_transitions { runs := [doneRun], activeRunId := none } 2 doneRun "x" Json.null).1
      (by decide), ?_⟩
  exact (c2_transitions { runs := [doneRun], activeRunId := none } 2 doneRun "x" Json.null).2.2.1
    (by simp) rfl

/-! ## Claim C6 -/

/-- C6 counterexample.  The claim says `delete` cancels (sets the
cancellation signal of) a still-running Run before removing it.
`deleteRun` only filters the run out and reassigns the active selection;
no `controller.abort()` call exists in it: deleting a concrete running
run issues no abort (empty effect list) and the run is simply dropped. -/
theorem c6_counterexample :
    sampleRun.status = RunStatus.running ∧
    deleteRun 1 { runs := [sampleRun], activeRunId := some 1 }
      = ({ runs := [], activeRunId := none }, []) := by
  exact ⟨rfl, rfl⟩

/-- C6 amended: `deleteRun` removes the Run from the registry regardless
of its status but does NOT cancel it (no abort is issued — a running
run's in-flight requests are left alone); if the deleted Run was the
active selection, the selection moves to the first remaining run, or to
none when the registry becomes empty; otherwise the selection is kept. -/
theorem c6_delete_semantics (runId : Nat) (st : PageState) :
    (deleteRun runId st).1.runs = st.runs.filter (fun r => !(r.id == runId)) ∧
    (deleteRun runId st).2 = [] ∧
    (∀ r ∈ (deleteRun runId st).1.runs, r ∈ st.runs) ∧
    (st.activeRunId = some runId →
      (deleteRun runId st).1.activeRunId
        = (st.runs.filter (fun r => !(r.id == runId))).head?.map Run.id) ∧
    (st.activeRunId ≠ some runId →
      (deleteRun runId st).1.activeRunId = st.activeRunId) := by
  refine ⟨rfl, rfl, ?_, ?_, ?_⟩
  · intro r hr
    exact List.mem_of_mem_filter hr
  · intro h
    simp only [deleteRun, if_pos h]
    cases (st.runs.filter (fun r => !(r.id == runId))).head? <;> rfl
  · intro h
    simp only [deleteRun, if_neg h]

/-- Witness for `c6_delete_semantics`: deleting the active (and only)
run leaves no selection; deleting a non-selected id keeps the selection. -/
theorem c6_delete_semantics_witness :
    (deleteRun 1 { runs := [sampleRun], activeRunId := some 1 }).1.activeRunId = none ∧
    (deleteRun 9 { runs := [sampleRun], activeRunId := some 1 }).1.activeRunId = some 1 := by
  constructor
  · have h := (c6_delete_semantics 1 { runs := [sampleRun], activeRunId := some 1 }).2.2.2.1 rfl
    simpa using h
  · exact (c6_delete_semantics 9 { runs := [sampleRun], activeRunId := some 1 }).2.2.2.2
      (by decide)

/-! ## Claim C7 -/

/-- C7 counterexample.  The claim says a precondition failure (empty
batch / unresolvable reference) is rejected with "the caller receives a
precondition error synchronously".  The guard of `onGenerateNewRun` is
`if (!ref || promptLines.length === 0) return;` — a bare `return`: on a
concrete empty-reference call and on a concrete empty-batch call the
page state is returned entirely unchanged — no Run is created (that part
holds) but no error of any kind is produced or surfaced either. -/
theorem c7_counterexample :
    onGenerateNewRun "" ["p"] 1 "Run #1" 0 1 { runs := [], activeRunId := none }
      = ({ runs := [], activeRunId := none }, []) ∧
    onGenerateNewRun "ref" [] 1 "Run #1" 0 1 { runs := [], activeRunId := none }
      = ({ runs := [], activeRunId := none }, []) := by
  exact ⟨rfl, rfl⟩

/-- C7 amended: an empty reference URL or an empty prompt batch makes
`onGenerateNewRun` a silent no-op — no Run is created, but no error is
surfaced to the caller.  Reference resolution failure at the route
(`getReferenceUrl` throwing for a missing product row or an empty
`image_url`) is rejected with an error response, status 500, before any
provider request is made (provider-call count 0) — but that happens
per-request, after the Run already exists on the client. -/
theorem c7_precondition_paths (ref : String) (pl : List String) (newId : Nat)
    (nm : String) (now sp : Nat) (st : PageState)
    (modelId prompt productId customUrl : Json) (db : DbSingle)
    (parse : Json → Option Json) (kieKey createResOk : Bool) (createJson : Json)
    (sched : List QueryStep) (nbKey : Bool) (refFetch : RefFetch)
    (nbResOk : Bool) (nbStatus : Nat) (nbJson : Json) (e m : String) :
    (ref = "" ∨ pl = [] → onGenerateNewRun ref pl newId nm now sp st = (st, [])) ∧
    (truthy prompt = true → truthy modelId = true →
      GenRoute.getReferenceUrl productId customUrl db = .error e →
      GenRoute.generatePOST modelId prompt productId customUrl db parse kieKey
          createResOk createJson sched nbKey refFetch nbResOk nbStatus nbJson
        = (some (.errRes (.str e) none 500), 0)) ∧
    (truthy customUrl = false → truthy productId = true →
      GenRoute.getReferenceUrl productId customUrl (.row (.str ""))
          = .error "No image_url found for product" ∧
      GenRoute.getReferenceUrl productId customUrl (.dbErr m)
          = .error ("DB error: " ++ m)) := by
  refine ⟨?_, ?_, ?_⟩
  · intro h
    rcases h with h | h
    · simp [onGenerateNewRun, h]
    · simp [onGenerateNewRun, h]
  · intro hp hm hres
    simp [GenRoute.generatePOST, hp, hm, hres]
  · intro hcu hpid
    constructor
    · simp only [GenRoute.getReferenceUrl, hcu, hpid]
      simp [truthy]
    · simp only [GenRoute.getReferenceUrl, hcu, hpid]
      simp

/-! ## Claim C3 -/

/-- Responses for a one-prompt batch where everything succeeds. -/
def respC3 : Nat → Outcome := fun _ => .ok (Json.obj [("imageDataUrl", .str "u")])

/-- A freshly created one-prompt run at concurrency 1. -/
def runC3 : Run := { sampleRun with prompts := ["a"], progressTotal := 1 }

/-- Final pool state of the concrete `respC3` execution. -/
def c3End : PoolState :=
  { cursor := 1,
    workers := .exited ::ₘ 0,
    run := incProgressRun (pushImageRun ⟨7, "a", Json.str "u"⟩ runC3),
    delivered := [0],
    dropped := [] }

/-- A complete execution of the one-prompt batch: claim, deliver, drain. -/
theorem c3Trace : PoolReach respC3 1 (poolInit runC3) c3End ∧ allExited c3End := by
  constructor
  · refine Relation.ReflTransGen.head
      (PoolStep.claim _ (0 : Multiset WStatus) rfl (by decide)) ?_
    refine Relation.ReflTransGen.head
      (PoolStep.deliverOk _ (0 : Multiset WStatus) 0 7
        (Json.obj [("imageDataUrl", Json.str "u")]) rfl rfl) ?_
    refine Relation.ReflTransGen.head
      (PoolStep.drain _ (0 : Multiset WStatus) rfl (by decide)) ?_
    exact Relation.ReflTransGen.refl
  · intro w hw
    simp only [c3End, Multiset.mem_cons, Multiset.not_mem_zero, or_false] at hw
    exact Or.inl hw

/-- C3: if a run's pool drains (`Promise.all` resolves with every worker
exited) and the run then finishes `done`, then `progress.done` equals
`progress.total` equals the batch length, the delivered indices are
exactly `0..total-1`, each exactly once (no duplicates, no drops), and
the pool had spawned exactly `min(max(N,1),3)` workers — which is `N`
for `N ∈ {1,2,3}` — over the one shared cursor of `poolInit`. -/
theorem c3_done_pool (run0 : Run) (resp : Nat → Outcome) (s : PoolState)
    (hst : run0.status = RunStatus.running) (hd0 : run0.progressDone = 0)
    (htot : run0.progressTotal = run0.prompts.length)
    (hsp : run0.speed = 1 ∨ run0.speed = 2 ∨ run0.speed = 3)
    (hreach : PoolReach resp run0.prompts.length (poolInit run0) s)
    (hexit : allExited s)
    (hfin : (finishPoolRun s.run).status = RunStatus.done) :
    s.run.progressDone = run0.prompts.length ∧
    s.run.progressTotal = run0.prompts.length ∧
    (s.delivered : Multiset Nat) = Multiset.range run0.prompts.length ∧
    s.delivered.Nodup ∧
    s.delivered.length = run0.prompts.length ∧
    Multiset.card (poolInit run0).workers = Nat.min (Nat.max run0.speed 1) 3 ∧
    Multiset.card (poolInit run0).workers = run0.speed := by
  have hinv := poolReach_inv hreach (poolInit_inv run0 hst hd0)
  have hframe := poolReach_frame hreach
  simp only [poolInit, Multiset.card_replicate] at hframe
  have hrun : s.run.status = RunStatus.running := by
    rcases hinv.status_cases with h | h
    · exact h
    · exfalso
      rw [finishPoolRun, if_neg (by rw [h]; decide)] at hfin
      rw [h] at hfin
      exact absurd hfin (by decide)
  have hdr : s.dropped = [] := hinv.running_clean hrun
  have hinf := inflights_of_allExited s hexit
  have hperm := hinv.perm
  rw [hdr, hinf] at hperm
  simp only [Multiset.coe_nil, add_zero] at hperm
  have hcardw : Multiset.card s.workers = Nat.max 1 (Nat.min 3 run0.speed) :=
    hframe.2.2.2.2.2.2
  have hpos : 0 < Multiset.card s.workers := by
    rw [hcardw]
    exact lt_of_lt_of_le Nat.zero_lt_one (Nat.le_max_left _ _)
  obtain ⟨w, hw⟩ := Multiset.card_pos_iff_exists_mem.mp hpos
  have hct : run0.prompts.length ≤ s.cursor := by
    rcases hexit w hw with h | h
    · exact hinv.exited_drained (h ▸ hw)
    · have hcr := hinv.crashed_error (h ▸ hw)
      rw [hrun] at hcr
      exact absurd hcr (by decide)
  have hcur : s.cursor = run0.prompts.length := le_antisymm hinv.cursor_le hct
  rw [hcur] at hperm
  have hlen : s.delivered.length = run0.prompts.length := by
    have hcc := congrArg Multiset.card hperm
    rwa [Multiset.coe_card, Multiset.card_range] at hcc
  refine ⟨?_, ?_, hperm, ?_, hlen, ?_, ?_⟩
  · rw [hinv.progress, hlen]
  · rw [hframe.2.1, htot]
  · rw [← Multiset.coe_nodup, hperm]
    exact Multiset.nodup_range _
  · simp only [poolInit, Multiset.card_replicate]
    rcases hsp with h | h | h <;> rw [h] <;> decide
  · simp only [poolInit, Multiset.card_replicate]
    rcases hsp with h | h | h <;> rw [h] <;> decide

/-- Witness for `c3_done_pool`: the concrete one-prompt execution ends
with one delivered outcome and progress 1/1. -/
theorem c3_done_pool_witness :
    c3End.run.progressDone = runC3.prompts.length ∧
    (c3End.delivered : Multiset Nat) = Multiset.range runC3.prompts.length ∧
    c3End.delivered.length = runC3.prompts.length ∧
    Multiset.card (poolInit runC3).workers = runC3.speed := by
  have h := c3_done_pool runC3 respC3 c3End rfl rfl rfl (Or.inl rfl)
    c3Trace.1 c3Trace.2 rfl
  exact ⟨h.1, h.2.2.1, h.2.2.2.2.1, h.2.2.2.2.2.2⟩

/-! ## Claim C9 -/

/-- Responses for a two-prompt batch: index 0 succeeds, index 1's fetch
rejects with a transport error (`e.message = "boom"`). -/
def respC9 : Nat → Outcome := fun i =>
  if i == 0 then .ok (Json.obj [("imageDataUrl", .str "u")])
  else .exn false (some "boom")

/-- The two-prompt run at concurrency 2. -/
def runC9 : Run := { sampleRun with speed := 2 }

/-- Final pool state of the concrete `respC9` execution: index 1 was
claimed but its worker threw; nobody re-claims it, so the pool drains
with `progress.done = 1 < 2` and the prompt-0 image retained. -/
def c9End : PoolState :=
  { cursor := 2,
    workers := .exited ::ₘ .crashed ::ₘ 0,
    run := setErrorRun "boom" Json.null
      (incProgressRun (pushImageRun ⟨7, "a", Json.str "u"⟩ runC9)),
    delivered := [0],
    dropped := [1] }

/-- The concrete two-worker execution: both workers claim, worker A
delivers prompt 0, worker B's request throws (worker exits), worker A
drains. -/
theorem c9Trace : PoolReach respC9 2 (poolInit runC9) c9End ∧ allExited c9End ∧
    (1 : Nat) ∈ c9End.dropped := by
  refine ⟨?_, ?_, by decide⟩
  · refine Relation.ReflTransGen.head
      (PoolStep.claim _ (.ready ::ₘ 0) rfl (by decide)) ?_
    refine Relation.ReflTransGen.head
      (PoolStep.claim _ (.inflight 0 ::ₘ 0) (by decide) (by decide)) ?_
    refine Relation.ReflTransGen.head
      (PoolStep.deliverOk _ (.inflight 1 ::ₘ 0) 0 7
        (Json.obj [("imageDataUrl", Json.str "u")]) (by decide) rfl) ?_
    refine Relation.ReflTransGen.head
      (PoolStep.throwExn _ (.ready ::ₘ 0) 1 false (some "boom") (by decide) rfl) ?_
    refine Relation.ReflTransGen.head
      (PoolStep.drain _ (.crashed ::ₘ 0) (by decide) (by decide)) ?_
    exact Relation.ReflTransGen.refl
  · intro w hw
    simp only [c9End, Multiset.mem_cons, Multiset.not_mem_zero, or_false] at hw
    rcases hw with h | h
    · exact Or.inl h
    · exact Or.inr h

/-- C9: once an index lands in the dropped history (its worker's request
threw — the `catch` block ran `setError` and returned without
`incProgress`), then in every later state the index is never delivered
and never in flight again (no re-claim), progress still counts exactly
the delivered outcomes, and the images accumulated before the throw are
retained.  The concrete `respC9` execution shows a run ending this way
with `progress.done = 1 < 2 = total`, one outcome fewer than prompts,
and the earlier image still present. -/
theorem c9_thrown_request (run0 : Run) (resp : Nat → Outcome) (s s' : PoolState) (i : Nat)
    (hst : run0.status = RunStatus.running) (hd0 : run0.progressDone = 0)
    (hreach : PoolReach resp run0.prompts.length (poolInit run0) s)
    (hreach' : PoolReach resp run0.prompts.length s s')
    (hdrop : i ∈ s.dropped) :
    i ∈ s'.dropped ∧
    i ∉ s'.delivered ∧
    i ∉ inflights s'.workers ∧
    s'.run.progressDone = s'.delivered.length ∧
    (∃ tl, s'.run.images = s.run.images ++ tl) ∧
    (c9End.run.progressDone < c9End.run.progressTotal ∧
      c9End.delivered.length = 1 ∧ runC9.prompts.length = 2 ∧
      c9End.run.images.length = 1 ∧ c9End.run.status = RunStatus.error) := by
  have hinv' := poolReach_inv (Relation.ReflTransGen.trans hreach hreach')
    (poolInit_inv run0 hst hd0)
  have hmono := poolReach_frame hreach'
  have hdrop' : i ∈ s'.dropped := by
    obtain ⟨dl, hdl⟩ := hmono.2.2.2.2.2.1
    rw [hdl]
    exact List.mem_append_left _ hdrop
  have hnd : ((s'.delivered : Multiset Nat) + inflights s'.workers
      + (s'.dropped : Multiset Nat)).Nodup := by
    rw [hinv'.perm]
    exact Multiset.nodup_range _
  have hcount := Multiset.nodup_iff_count_le_one.mp hnd i
  rw [Multiset.count_add, Multiset.count_add] at hcount
  have hd1 : 1 ≤ Multiset.count i (s'.dropped : Multiset Nat) :=
    Multiset.one_le_count_iff_mem.mpr (Multiset.mem_coe.mpr hdrop')
  refine ⟨hdrop', ?_, ?_, hinv'.progress, hmono.2.2.2.1, by decide, rfl, rfl, rfl, rfl⟩
  · intro h
    have h1 : 1 ≤ Multiset.count i (s'.delivered : Multiset Nat) :=
      Multiset.one_le_count_iff_mem.mpr (Multiset.mem_coe.mpr h)
    omega
  · intro h
    have h1 : 1 ≤ Multiset.count i (inflights s'.workers) :=
      Multiset.one_le_count_iff_mem.mpr h
    omega

/-- Witness for `c9_thrown_request` on the concrete `respC9` execution:
index 1 is dropped at the end state, never delivered, and progress
matches delivered count. -/
theorem c9_thrown_request_witness :
    (1 : Nat) ∈ c9End.dropped ∧ (1 : Nat) ∉ c9End.delivered ∧
    c9End.run.progressDone = c9End.delivered.length := by
  have h := c9_thrown_request runC9 respC9 c9End c9End 1 rfl rfl
    c9Trace.1 Relation.ReflTransGen.refl c9Trace.2.2
  exact ⟨h.1, h.2.1, h.2.2.2.1⟩

/-! ## Claim C8 -/

/-! Independent first-match characterizations of the four shape probes,
phrased with `List.find?`, against which the source's loops are
verified. -/

/-- The condition of the fourth probe (`du && /^data:image\x5c//.test(du)`). -/
def dataUriCond (p : Json) : Bool :=
  truthy (jsOr (getField p "data_uri") (getField p "dataUri"))
    && (jsToString (jsOr (getField p "data_uri") (getField p "dataUri"))).startsWith
        "data:image/"

/-- The condition under which one `media` entry is used (either an
inline image payload or a url). -/
def mediaCond (m : Json) : Bool :=
  (truthy (getField m "data") && GenRoute.mimeStartsImage (getField m "mimeType"))
    || truthy (getField m "url")

/-- What a matching `media` entry produces. -/
def renderMedia (m : Json) : GenRoute.ExtractOut :=
  if truthy (getField m "data") && GenRoute.mimeStartsImage (getField m "mimeType") then
    .dataUrl (.str ("data:" ++ jsToString (getField m "mimeType") ++ ";base64,"
      ++ jsToString (getField m "data")))
  else .urlOut (getField m "url")

/-- Loop 1 returns the rendering of the first part with truthy inline
data. -/
theorem scanInline_eq_find (parts : List Json) :
    GenRoute.scanInline parts
      = (parts.find? fun p => truthy (GenRoute.getInlineData p)).map
          (fun p => Json.str ("data:" ++ jsToString (GenRoute.getInlineMime p)
            ++ ";base64," ++ jsToString (GenRoute.getInlineData p))) := by
  induction parts with
  | nil => rfl
  | cons p ps ih =>
    rw [List.find?_cons, GenRoute.scanInline]
    by_cases h : truthy (GenRoute.getInlineData p) = true
    · simp only [h, if_true]
      rfl
    · have h' : truthy (GenRoute.getInlineData p) = false := by
        revert h
        cases truthy (GenRoute.getInlineData p) <;> simp
      simp only [h', Bool.false_eq_true, if_false]
      exact ih

/-- Loop 2 returns the first truthy file uri. -/
theorem scanFile_eq_find (parts : List Json) :
    GenRoute.scanFile parts
      = (parts.find? fun p => truthy (GenRoute.getFileUri p)).map GenRoute.getFileUri := by
  induction parts with
  | nil => rfl
  | cons p ps ih =>
    rw [List.find?_cons, GenRoute.scanFile]
    by_cases h : truthy (GenRoute.getFileUri p) = true
    · simp only [h, if_true]
      rfl
    · have h' : truthy (GenRoute.getFileUri p) = false := by
        revert h
        cases truthy (GenRoute.getFileUri p) <;> simp
      simp only [h', Bool.false_eq_true, if_false]
      exact ih

/-- The inner media loop takes the first entry matching either media
shape, image data winning over url within one entry. -/
theorem scanMediaItems_eq_find (ms : List Json) :
    GenRoute.scanMediaItems ms = (ms.find? mediaCond).map renderMedia := by
  induction ms with
  | nil => rfl
  | cons m ms ih =>
    rw [List.find?_cons, GenRoute.scanMediaItems]
    by_cases h1 : (truthy (getField m "data")
        && GenRoute.mimeStartsImage (getField m "mimeType")) = true
    · simp only [mediaCond, h1, Bool.true_or, if_true]
      simp only [Option.map_some', renderMedia, h1, if_true]
    · have h1' : (truthy (getField m "data")
          && GenRoute.mimeStartsImage (getField m "mimeType")) = false := by
        revert h1
        cases truthy (getField m "data")
          && GenRoute.mimeStartsImage (getField m "mimeType") <;> simp
      by_cases h2 : truthy (getField m "url") = true
      · simp only [mediaCond, h1', h2, Bool.false_or, if_true, Bool.false_eq_true,
          if_false, Option.map_some', renderMedia]
      · have h2' : truthy (getField m "url") = false := by
          revert h2
          cases truthy (getField m "url") <;> simp
        simp only [mediaCond, h1', h2', Bool.false_or, Bool.false_eq_true, if_false]
        exact ih

/-- Loop 3 takes the first matching media entry in part order. -/
theorem scanMedia_eq_find (parts : List Json) :
    GenRoute.scanMedia parts
      = ((parts.flatMap GenRoute.mediaOf).find? mediaCond).map renderMedia := by
  induction parts with
  | nil => rfl
  | cons p ps ih =>
    rw [GenRoute.scanMedia, List.flatMap_cons, List.find?_append,
      scanMediaItems_eq_find]
    cases hf : (GenRoute.mediaOf p).find? mediaCond with
    | none =>
      simp only [Option.map_none', Option.none_or]
      exact ih
    | some m =>
      simp only [Option.map_some', Option.or]

/-- Loop 4 returns the first `data_uri`/`dataUri` value that is truthy
and passes the `^data:image\x5c/` test. -/
theorem scanDataUri_eq_find (parts : List Json) :
    GenRoute.scanDataUri parts
      = (parts.find? dataUriCond).map
          (fun p => jsOr (getField p "data_uri") (getField p "dataUri")) := by
  induction parts with
  | nil => rfl
  | cons p ps ih =>
    rw [List.find?_cons, GenRoute.scanDataUri]
    by_cases h : dataUriCond p = true
    · have hb := h
      rw [dataUriCond] at hb
      simp only [h, if_true, hb]
      rfl
    · have h' : dataUriCond p = false := by
        revert h
        cases dataUriCond p <;> simp
      have hb := h'
      rw [dataUriCond] at hb
      simp only [h', Bool.false_eq_true, if_false, hb]
      exact ih

/-- Appending to a nonempty string keeps it nonempty. -/
theorem append_ne_empty (s t : String) (hs : s ≠ "") : s ++ t ≠ "" := by
  intro h
  apply hs
  have hl := congrArg String.length h
  rw [String.length_append] at hl
  have h0 : ("" : String).length = 0 := rfl
  rw [h0] at hl
  have hs0 : s.length = 0 := by omega
  cases s with
  | mk data =>
    cases data with
    | nil => rfl
    | cons c cs => simp [String.length] at hs0

/-- A nonempty string is truthy. -/
theorem truthy_str_of_ne (s : String) (h : s ≠ "") : truthy (.str s) = true := by
  simp [truthy, h]

/-- The fall-through diagnostic is never the empty string: it always
starts with `No image parts found.`. -/
theorem noImageReason_ne_empty (json : Json) (parts : List Json) :
    GenRoute.noImageReason json parts ≠ "" := by
  rw [GenRoute.noImageReason]
  apply append_ne_empty
  apply append_ne_empty
  apply append_ne_empty
  decide

/-- `x ?? null` is the identity in this value model. -/
theorem jsNullish_null (d : Json) : jsNullish d .null = d := by
  cases d <;> rfl

/-- C8: `extractGeminiImage` probes the fixed ordered list of response
shapes — inline base64 data, hosted file uri, media array entries,
data_uri — with first match winning (each clause is characterized
against an independent `List.find?` description, and an earlier shape
wins regardless of later ones); when none of the shapes is present in
an HTTP-success response, the route answers status 502 with the
diagnostic `reason` (never empty) and the debug payload — and every
success the Gemini branch produces carries a truthy (in particular
non-empty) artifact.  Hypotheses `hc`/`hp` pin the candidate and parts
arrays (a truthy non-array `parts` would make the JS `for...of` throw,
which the route's catch turns into a status-500 failure — also not an
empty success). -/
theorem c8_ordered_extraction (json c0 : Json) (cs parts : List Json)
    (hc : jsOr (getField json "candidates") (.arr []) = .arr (c0 :: cs))
    (hp : jsOr (getPath c0 ["content", "parts"]) (.arr []) = .arr parts) :
    (∀ p, (parts.find? fun q => truthy (GenRoute.getInlineData q)) = some p →
      GenRoute.extractGeminiImage json
        = .dataUrl (.str ("data:" ++ jsToString (GenRoute.getInlineMime p)
            ++ ";base64," ++ jsToString (GenRoute.getInlineData p)))) ∧
    ((parts.find? fun q => truthy (GenRoute.getInlineData q)) = none →
      ∀ p, (parts.find? fun q => truthy (GenRoute.getFileUri q)) = some p →
        GenRoute.extractGeminiImage json = .urlOut (GenRoute.getFileUri p)) ∧
    ((parts.find? fun q => truthy (GenRoute.getInlineData q)) = none →
      (parts.find? fun q => truthy (GenRoute.getFileUri q)) = none →
      ∀ m, ((parts.flatMap GenRoute.mediaOf).find? mediaCond) = some m →
        GenRoute.extractGeminiImage json = renderMedia m) ∧
    ((parts.find? fun q => truthy (GenRoute.getInlineData q)) = none →
      (parts.find? fun q => truthy (GenRoute.getFileUri q)) = none →
      ((parts.flatMap GenRoute.mediaOf).find? mediaCond) = none →
      ∀ p, parts.find? dataUriCond = some p →
        GenRoute.extractGeminiImage json
          = .dataUrl (jsOr (getField p "data_uri") (getField p "dataUri"))) ∧
    ((parts.find? fun q => truthy (GenRoute.getInlineData q)) = none →
      (parts.find? fun q => truthy (GenRoute.getFileUri q)) = none →
      ((parts.flatMap GenRoute.mediaOf).find? mediaCond) = none →
      parts.find? dataUriCond = none →
        GenRoute.extractGeminiImage json
          = .noImage (GenRoute.noImageReason json parts)
              (GenRoute.noImageDebug json (.arr parts)) ∧
        GenRoute.noImageReason json parts ≠ "" ∧
        ∀ st : Nat, GenRoute.geminiBranch true st json
          = .errRes (.str (GenRoute.noImageReason json parts))
              (some (GenRoute.noImageDebug json (.arr parts))) 502) ∧
    (∀ v, GenRoute.extractGeminiImage json = .dataUrl v → truthy v = true) ∧
    (∀ u, GenRoute.extractGeminiImage json = .urlOut u → truthy u = true) ∧
    (∀ st v, GenRoute.geminiBranch true st json = .okRes v → truthy v = true) := by
  have e1 : ∀ p, (parts.find? fun q => truthy (GenRoute.getInlineData q)) = some p →
      GenRoute.extractGeminiImage json
        = .dataUrl (.str ("data:" ++ jsToString (GenRoute.getInlineMime p)
            ++ ";base64," ++ jsToString (GenRoute.getInlineData p))) := by
    intro p h
    simp only [GenRoute.extractGeminiImage, hc, hp, asArrList, scanInline_eq_find,
      h, Option.map_some']
  have e2 : (parts.find? fun q => truthy (GenRoute.getInlineData q)) = none →
      ∀ p, (parts.find? fun q => truthy (GenRoute.getFileUri q)) = some p →
      GenRoute.extractGeminiImage json = .urlOut (GenRoute.getFileUri p) := by
    intro h1 p h2
    simp only [GenRoute.extractGeminiImage, hc, hp, asArrList, scanInline_eq_find,
      h1, Option.map_none', scanFile_eq_find, h2, Option.map_some']
  have e3 : (parts.find? fun q => truthy (GenRoute.getInlineData q)) = none →
      (parts.find? fun q => truthy (GenRoute.getFileUri q)) = none →
      ∀ m, ((parts.flatMap GenRoute.mediaOf).find? mediaCond) = some m →
      GenRoute.extractGeminiImage json = renderMedia m := by
    intro h1 h2 m h3
    simp only [GenRoute.extractGeminiImage, hc, hp, asArrList, scanInline_eq_find,
      h1, Option.map_none', scanFile_eq_find, h2, scanMedia_eq_find, h3,
      Option.map_some']
  have e4 : (parts.find? fun q => truthy (GenRoute.getInlineData q)) = none →
      (parts.find? fun q => truthy (GenRoute.getFileUri q)) = none →
      ((parts.flatMap GenRoute.mediaOf).find? mediaCond) = none →
      ∀ p, parts.find? dataUriCond = some p →
      GenRoute.extractGeminiImage json
        = .dataUrl (jsOr (getField p "data_uri") (getField p "dataUri")) := by
    intro h1 h2 h3 p h4
    simp only [GenRoute.extractGeminiImage, hc, hp, asArrList, scanInline_eq_find,
      h1, Option.map_none', scanFile_eq_find, h2, scanMedia_eq_find, h3,
      scanDataUri_eq_find, h4, Option.map_some']
  have e5 : (parts.find? fun q => truthy (GenRoute.getInlineData q)) = none →
      (parts.find? fun q => truthy (GenRoute.getFileUri q)) = none →
      ((parts.flatMap GenRoute.mediaOf).find? mediaCond) = none →
      parts.find? dataUriCond = none →
      GenRoute.extractGeminiImage json
        = .noImage (GenRoute.noImageReason json parts)
            (GenRoute.noImageDebug json (.arr parts)) := by
    intro h1 h2 h3 h4
    simp only [GenRoute.extractGeminiImage, hc, hp, asArrList, scanInline_eq_find,
      h1, Option.map_none', scanFile_eq_find, h2, scanMedia_eq_find, h3,
      scanDataUri_eq_find, h4]
  have hdata : ∀ v, GenRoute.extractGeminiImage json = .dataUrl v → truthy v = true := by
    intro v hv
    rcases h1 : parts.find? fun q => truthy (GenRoute.getInlineData q) with _ | p1
    · rcases h2 : parts.find? fun q => truthy (GenRoute.getFileUri q) with _ | p2
      · rcases h3 : (parts.flatMap GenRoute.mediaOf).find? mediaCond with _ | m
        · rcases h4 : parts.find? dataUriCond with _ | p4
          · rw [e5 h1 h2 h3 h4] at hv
            exact absurd hv (by simp)
          · rw [e4 h1 h2 h3 p4 h4] at hv
            rw [GenRoute.ExtractOut.dataUrl.injEq] at hv
            subst hv
            have hcond := List.find?_some h4
            rw [dataUriCond, Bool.and_eq_true] at hcond
            exact hcond.1
        · rw [e3 h1 h2 m h3] at hv
          rw [renderMedia] at hv
          by_cases hm : (truthy (getField m "data")
              && GenRoute.mimeStartsImage (getField m "mimeType")) = true
          · rw [if_pos hm, GenRoute.ExtractOut.dataUrl.injEq] at hv
            subst hv
            exact truthy_str_of_ne _ (append_ne_empty _ _ (append_ne_empty _ _
              (append_ne_empty _ _ (by decide))))
          · rw [if_neg hm] at hv
            exact absurd hv (by simp)
      · rw [e2 h1 p2 h2] at hv
        exact absurd hv (by simp)
    · rw [e1 p1 h1] at hv
      rw [GenRoute.ExtractOut.dataUrl.injEq] at hv
      subst hv
      exact truthy_str_of_ne _ (append_ne_empty _ _ (append_ne_empty _ _
        (append_ne_empty _ _ (by decide))))
  have hurl : ∀ u, GenRoute.extractGeminiImage json = .urlOut u → truthy u = true := by
    intro u hu
    rcases h1 : parts.find? fun q => truthy (GenRoute.getInlineData q) with _ | p1
    · rcases h2 : parts.find? fun q => truthy (GenRoute.getFileUri q) with _ | p2
      · rcases h3 : (parts.flatMap GenRoute.mediaOf).find? mediaCond with _ | m
        · rcases h4 : parts.find? dataUriCond with _ | p4
          · rw [e5 h1 h2 h3 h4] at hu
            exact absurd hu (by simp)
          · rw [e4 h1 h2 h3 p4 h4] at hu
            exact absurd hu (by simp)
        · rw [e3 h1 h2 m h3] at hu
          rw [renderMedia] at hu
          by_cases hm : (truthy (getField m "data")
              && GenRoute.mimeStartsImage (getField m "mimeType")) = true
          · rw [if_pos hm] at hu
            exact absurd hu (by simp)
          · rw [if_neg hm, GenRoute.ExtractOut.urlOut.injEq] at hu
            subst hu
            have hcond := List.find?_some h3
            rw [mediaCond, Bool.or_eq_true] at hcond
            rcases hcond with hcond | hcond
            · exact absurd hcond hm
            · exact hcond
      · rw [e2 h1 p2 h2] at hu
        rw [GenRoute.ExtractOut.urlOut.injEq] at hu
        subst hu
        have hcond := List.find?_some h2
        exact hcond
    · rw [e1 p1 h1] at hu
      exact absurd hu (by simp)
  refine ⟨e1, e2, e3, e4, ?_, hdata, hurl, ?_⟩
  · intro h1 h2 h3 h4
    refine ⟨e5 h1 h2 h3 h4, noImageReason_ne_empty json parts, ?_⟩
    intro st
    rw [GenRoute.geminiBranch]
    simp only [Bool.not_true, Bool.false_eq_true, if_false]
    rw [e5 h1 h2 h3 h4]
    simp [jsOr, truthy_str_of_ne _ (noImageReason_ne_empty json parts), jsNullish_null]
  · intro st v hv
    rw [GenRoute.geminiBranch] at hv
    simp only [Bool.not_true, Bool.false_eq_true, if_false] at hv
    rcases hex : GenRoute.extractGeminiImage json with v' | u' | ⟨r, d⟩
    · rw [hex] at hv
      dsimp only at hv
      rw [RouteRes.okRes.injEq] at hv
      subst hv
      exact hdata v' hex
    · rw [hex] at hv
      dsimp only at hv
      rw [RouteRes.okRes.injEq] at hv
      subst hv
      exact hurl u' hex
    · rw [hex] at hv
      dsimp only at hv
      exact absurd hv (by simp)

/-- A part carrying only a hosted file uri. -/
def c8part1 : Json :=
  Json.obj [("fileData", Json.obj [("fileUri", Json.str "https://x/img.png")])]

/-- A part carrying inline base64 image data. -/
def c8part2 : Json :=
  Json.obj [("inline_data",
    Json.obj [("mime_type", Json.str "image/png"), ("data", Json.str "QUJD")])]

/-- A Gemini response whose first part has a file uri and whose second
part has inline data: the inline shape must win (it is probed first
across all parts). -/
def c8cand : Json := Json.obj [("content", Json.obj [("parts", Json.arr [c8part1, c8part2])])]

/-- The enclosing response object. -/
def c8json : Json := Json.obj [("candidates", Json.arr [c8cand])]

/-- Witness for `c8_ordered_extraction`: on the concrete `c8json` the
inline shape of the second part wins over the file uri of the first. -/
theorem c8_ordered_extraction_witness :
    GenRoute.extractGeminiImage c8json
      = .dataUrl (.str "data:image/png;base64,QUJD") :=
  (c8_ordered_extraction c8json c8cand [] [c8part1, c8part2] rfl rfl).1 c8part2 rfl

/-! ## Claim C4 -/

/-- A pending-state `recordInfo` response observed at elapsed time 0. -/
def pendingQ : QueryStep :=
  ⟨0, true, Json.obj [("code", .num 200), ("data", Json.obj [("state", .str "waiting")])]⟩

/-- The fetch counter of the poll loop never decreases. -/
theorem seedreamPoll_fetches_mono (parse : Json → Option Json) (sched : List QueryStep) :
    ∀ ls n, n ≤ (GenRoute.seedreamPoll parse sched ls n).2 := by
  induction sched with
  | nil =>
    intro ls n
    exact Nat.le.refl
  | cons q rest ih =>
    intro ls n
    unfold GenRoute.seedreamPoll
    split
    · dsimp only
      split
      · exact Nat.le_succ n
      · split
        · split
          · exact Nat.le_succ n
          · split
            · exact Nat.le_succ n
            · split
              · exact Nat.le_succ n
              · exact Nat.le_succ n
        · split
          · exact Nat.le_succ n
          · exact Nat.le_trans (Nat.le_succ n) (ih _ _)
    · exact Nat.le.refl

/-- C4 counterexample.  The claim says the polling driver, invoked with
the cancellation signal already set, returns `Failure{"cancelled"}`
immediately with zero status fetches, and that each iteration checks
the signal before sleeping and fetching.  The Seedream poll loop in the
route takes no cancellation signal at all (see the signature of
`GenRoute.seedreamPoll`, translated from the `while` loop — its only
inputs are the clock, the responses and `JSON.parse`), so its behaviour
is the same whatever any cancellation state is: at this concrete
invocation it sleeps, performs one status fetch (second component = 1)
and keeps polling — it does not return any `"cancelled"` failure. -/
theorem c4_counterexample :
    GenRoute.seedreamPoll (fun _ => none) [pendingQ] (.str "waiting") 0
      = (.outOfSched, 1) := rfl

/-- C4 amended: the route's Seedream poll loop consults no cancellation
signal (none is in scope server-side); every iteration whose
`while`-condition check happens before the 180 000 ms deadline
unconditionally sleeps 2 s and performs a status fetch, and when the
check happens at or after the deadline the loop exits with the
`Seedream generation timed out` failure carrying the last observed
state — `Failure{"cancelled"}` with zero fetches is not a possible
outcome of this loop.  (Cancelling a run instead aborts the client-side
request to the route: the worker's `fetch` rejects with `AbortError`.) -/
theorem c4_poll_no_cancellation (parse : Json → Option Json) (q : QueryStep)
    (rest : List QueryStep) (ls : Json) (n : Nat) :
    (q.elapsed < 180000 →
      n + 1 ≤ (GenRoute.seedreamPoll parse (q :: rest) ls n).2) ∧
    (180000 ≤ q.elapsed →
      GenRoute.seedreamPoll parse (q :: rest) ls n
        = (.res (.errRes (.str ("Seedream generation timed out (last state: "
            ++ jsToString ls ++ ")")) none 504), n)) := by
  constructor
  · intro h1
    unfold GenRoute.seedreamPoll
    rw [if_pos h1]
    dsimp only
    split
    · exact Nat.le.refl
    · split
      · split
        · exact Nat.le.refl
        · split
          · exact Nat.le.refl
          · split
            · exact Nat.le.refl
            · exact Nat.le.refl
      · split
        · exact Nat.le.refl
        · exact seedreamPoll_fetches_mono parse rest _ (n + 1)
  · intro h2
    unfold GenRoute.seedreamPoll
    rw [if_neg (by omega)]

/-- Witness for `c4_poll_no_cancellation`: before the deadline the loop
fetches (count 1 ≥ 1); at elapsed 200 000 ms it exits with the timeout
failure. -/
theorem c4_poll_no_cancellation_witness :
    0 + 1 ≤ (GenRoute.seedreamPoll (fun _ => none) [pendingQ] (.str "waiting") 0).2 ∧
    GenRoute.seedreamPoll (fun _ => none)
        [⟨200000, true, Json.null⟩] (.str "waiting") 0
      = (.res (.errRes (.str ("Seedream generation timed out (last state: "
          ++ jsToString (.str "waiting") ++ ")")) none 504), 0) :=
  ⟨(c4_poll_no_cancellation (fun _ => none) pendingQ [] (.str "waiting") 0).1 (by decide),
   (c4_poll_no_cancellation (fun _ => none) ⟨200000, true, Json.null⟩ []
     (.str "waiting") 0).2 (by decide)⟩

/-! ## Claim C10 -/

/-- C10: the Seedream create-then-poll branch is behaviorally identical
across the two generate-route variants: for every request body (payload
builder), every `JSON.parse` behaviour, key state, `createTask`
response and poll schedule, the two translations — made independently
from src/app/api/generate/route.ts and from src/unnamed/part_002 —
build the same payload, run the same poll loop (2000 ms sleep per
iteration, 180 000 ms deadline, terminal states exactly `"success"` and
`"fail"`, anything else treated as pending) and return identical
results, error messages and status codes, with identical numbers of
provider requests. -/
theorem c10_seedream_variants_equal :
    GenRoute.seedreamPayload = GenRouteV2.seedreamPayload ∧
    GenRoute.seedreamPoll = GenRouteV2.seedreamPoll ∧
    GenRoute.seedreamBranch = GenRouteV2.seedreamBranch := by
  refine ⟨rfl, ?_, ?_⟩
  · funext parse sched
    induction sched with
    | nil =>
      funext ls n
      rfl
    | cons q rest ih =>
      funext ls n
      unfold GenRoute.seedreamPoll GenRouteV2.seedreamPoll
      rw [ih]
  · have hpoll : GenRoute.seedreamPoll = GenRouteV2.seedreamPoll := by
      funext parse sched
      induction sched with
      | nil =>
        funext ls n
        rfl
      | cons q rest ih =>
        funext ls n
        unfold GenRoute.seedreamPoll GenRouteV2.seedreamPoll
        rw [ih]
    funext parse kieKey createResOk createJson sched
    unfold GenRoute.seedreamBranch GenRouteV2.seedreamBranch
    rw [hpoll]

/-! ## Claim C5 -/

/-- The fold of `oldestRun` returns an element of the list. -/
theorem oldestRun_mem (r0 : Run) (rest : List Run) : oldestRun r0 rest ∈ r0 :: rest := by
  induction rest generalizing r0 with
  | nil => simp [oldestRun]
  | cons r rs ih =>
    rw [oldestRun, List.foldl_cons]
    have h := ih (if r.startedAt < r0.startedAt then r else r0)
    rw [oldestRun] at h
    rcases List.mem_cons.mp h with h1 | h1
    · rw [h1]
      split_ifs <;> simp
    · simp only [List.mem_cons]
      exact Or.inr (Or.inr h1)

/-- The fold of `oldestRun` attains the minimal `startedAt`. -/
theorem oldestRun_min (r0 : Run) (rest : List Run) :
    ∀ r ∈ r0 :: rest, (oldestRun r0 rest).startedAt ≤ r.startedAt := by
  induction rest generalizing r0 with
  | nil =>
    intro r hr
    rw [List.mem_singleton] at hr
    rw [hr, oldestRun]
    simp
  | cons q rs ih =>
    intro r hr
    rw [oldestRun, List.foldl_cons]
    have hfold := ih (if q.startedAt < r0.startedAt then q else r0)
    rw [oldestRun] at hfold
    have hm0 : (if q.startedAt < r0.startedAt then q else r0).startedAt ≤ r0.startedAt := by
      split_ifs with h
      · omega
      · exact le_refl _
    have hmq : (if q.startedAt < r0.startedAt then q else r0).startedAt ≤ q.startedAt := by
      split_ifs with h
      · exact le_refl _
      · omega
    have hself := hfold _ (List.mem_cons_self _ _)
    rcases List.mem_cons.mp hr with h1 | h1
    · rw [h1] at *
      omega
    · rcases List.mem_cons.mp h1 with h2 | h2
      · rw [h2] at *
        omega
      · exact hfold r (List.mem_cons_of_mem _ h2)

/-- Removing a member by id strictly shrinks the list. -/
theorem length_filter_ne_id (l : List Run) (o : Run) (ho : o ∈ l) :
    (l.filter fun r => !(r.id == o.id)).length < l.length := by
  induction l with
  | nil => simp at ho
  | cons a as ih =>
    rcases List.mem_cons.mp ho with h | h
    · rw [h]
      simp only [List.filter_cons, beq_self_eq_true, Bool.not_true, if_false,
        List.length_cons]
      exact Nat.lt_succ_of_le (List.length_filter_le _ _)
    · rw [List.filter_cons]
      by_cases hp : (!(a.id == o.id)) = true
      · rw [if_pos hp]
        simpa using ih h
      · rw [if_neg hp]
        exact Nat.lt_succ_of_lt (ih h)

/-- C5: submitting when 3 runs are registered aborts and evicts exactly
the run with the smallest creation timestamp (unique under the distinct
timestamps the claim presupposes), leaves the other runs verbatim
(filtered list), registers exactly the new run, and the registry holds
at most 3 runs after each of `submit`, `cancel` and `delete`. -/
theorem c5_registry_eviction (st : PageState) (ref : String) (pl : List String)
    (newId : Nat) (nm : String) (now sp : Nat)
    (hlen : st.runs.length = 3)
    (hts : st.runs.Pairwise fun a b => a.startedAt ≠ b.startedAt)
    (href : ref ≠ "") (hpl : pl ≠ []) :
    ∃ o ∈ st.runs,
      (∀ r ∈ st.runs, o.startedAt ≤ r.startedAt) ∧
      (∀ r ∈ st.runs, r = o ∨ o.startedAt < r.startedAt) ∧
      (onGenerateNewRun ref pl newId nm now sp st).2 = [o.id] ∧
      (onGenerateNewRun ref pl newId nm now sp st).1.runs
        = st.runs.filter (fun r => !(r.id == o.id)) ++ [mkNewRun newId nm now pl sp] ∧
      (onGenerateNewRun ref pl newId nm now sp st).1.runs.length ≤ 3 ∧
      (∀ st2 : PageState, st2.runs.length ≤ 3 →
        (onGenerateNewRun ref pl newId nm now sp st2).1.runs.length ≤ 3 ∧
        (cancelRun newId st2).1.runs.length = st2.runs.length ∧
        (deleteRun newId st2).1.runs.length ≤ st2.runs.length) := by
  have hguard : (ref == "" || pl.length == 0) = false := by
    simp only [Bool.or_eq_false_iff, beq_eq_false_iff_ne, ne_eq]
    exact ⟨href, fun h => hpl (List.length_eq_zero.mp h)⟩
  obtain ⟨a, b, c, hruns⟩ := List.length_eq_three.mp hlen
  have homem : oldestRun a [b, c] ∈ st.runs := by
    rw [hruns]
    exact oldestRun_mem a [b, c]
  have homin : ∀ r ∈ st.runs, (oldestRun a [b, c]).startedAt ≤ r.startedAt := by
    rw [hruns]
    exact oldestRun_min a [b, c]
  have hev : evictIfFull st.runs
      = (st.runs.filter fun r => !(r.id == (oldestRun a [b, c]).id),
         [(oldestRun a [b, c]).id]) := by
    rw [hruns, evictIfFull, if_neg (by simp)]
  have hmain : onGenerateNewRun ref pl newId nm now sp st
      = ({ runs := (st.runs.filter fun r => !(r.id == (oldestRun a [b, c]).id))
             ++ [mkNewRun newId nm now pl sp],
           activeRunId := some newId },
         [(oldestRun a [b, c]).id]) := by
    simp only [onGenerateNewRun, hguard, Bool.false_eq_true, if_false, hev]
  have hflt := length_filter_ne_id st.runs (oldestRun a [b, c]) homem
  refine ⟨oldestRun a [b, c], homem, homin, ?_, ?_, ?_, ?_, ?_⟩
  · intro r hr
    by_cases h : r = oldestRun a [b, c]
    · exact Or.inl h
    · refine Or.inr ?_
      have hne : r.startedAt ≠ (oldestRun a [b, c]).startedAt :=
        hts.forall (fun _ _ h => h.symm) hr homem h
      have := homin r hr
      omega
  · rw [hmain]
  · rw [hmain]
  · rw [hmain]
    simp only [List.length_append, List.length_cons, List.length_nil]
    omega
  · intro st2 hle
    refine ⟨?_, ?_, ?_⟩
    · by_cases h3 : st2.runs.length < 3
      · simp only [onGenerateNewRun, hguard, Bool.false_eq_true, if_false,
          evictIfFull, if_pos h3]
        simp only [List.length_append, List.length_cons, List.length_nil]
        omega
      · have hlen3 : st2.runs.length = 3 := by omega
        obtain ⟨x, y, z, hxyz⟩ := List.length_eq_three.mp hlen3
        have hev2 : evictIfFull st2.runs
            = (st2.runs.filter fun r => !(r.id == (oldestRun x [y, z]).id),
               [(oldestRun x [y, z]).id]) := by
          rw [hxyz, evictIfFull, if_neg (by simp)]
        have hflt2 := length_filter_ne_id st2.runs (oldestRun x [y, z])
          (by rw [hxyz]; exact oldestRun_mem x [y, z])
        simp only [onGenerateNewRun, hguard, Bool.false_eq_true, if_false, hev2]
        simp only [List.length_append, List.length_cons, List.length_nil]
        omega
    · simp [cancelRun]
    · simp only [deleteRun]
      exact List.length_filter_le _ _

/-- Runs sharing `sampleRun`'s shape with distinct ids and timestamps. -/
def runB : Run := { sampleRun with id := 2, startedAt := 3 }

/-- Third registered run, the newest. -/
def runC : Run := { sampleRun with id := 3, startedAt := 9 }

/-- Witness for `c5_registry_eviction` on a concrete full registry
(timestamps 5, 3, 9): the evicted run is the one started at 3. -/
theorem c5_registry_eviction_witness :
    ∃ o ∈ ({ runs := [sampleRun, runB, runC], activeRunId := none } : PageState).runs,
      (∀ r ∈ ({ runs := [sampleRun, runB, runC], activeRunId := none } : PageState).runs,
        o.startedAt ≤ r.startedAt) ∧
      (∀ r ∈ ({ runs := [sampleRun, runB, runC], activeRunId := none } : PageState).runs,
        r = o ∨ o.startedAt < r.startedAt) ∧
      (onGenerateNewRun "ref" ["p"] 4 "Run #2" 20 1
        { runs := [sampleRun, runB, runC], activeRunId := none }).2 = [o.id] ∧
      (onGenerateNewRun "ref" ["p"] 4 "Run #2" 20 1
        { runs := [sampleRun, runB, runC], activeRunId := none }).1.runs
        = ([sampleRun, runB, runC].filter (fun r => !(r.id == o.id)))
            ++ [mkNewRun 4 "Run #2" 20 ["p"] 1] ∧
      (onGenerateNewRun "ref" ["p"] 4 "Run #2" 20 1
        { runs := [sampleRun, runB, runC], activeRunId := none }).1.runs.length ≤ 3 ∧
      (∀ st2 : PageState, st2.runs.length ≤ 3 →
        (onGenerateNewRun "ref" ["p"] 4 "Run #2" 20 1 st2).1.runs.length ≤ 3 ∧
        (cancelRun 4 st2).1.runs.length = st2.runs.length ∧
        (deleteRun 4 st2).1.runs.length ≤ st2.runs.length) :=
  c5_registry_eviction { runs := [sampleRun, runB, runC], activeRunId := none }
    "ref" ["p"] 4 "Run #2" 20 1 rfl
    (by simp [sampleRun, runB, runC, List.pairwise_cons])
    (by decide) (by decide)

/-- Witness for `c7_precondition_paths`: a concrete empty batch is a
silent no-op, and a concrete product row with an empty `image_url`
yields the status-500 resolution error with zero provider calls. -/
theorem c7_precondition_paths_witness :
    onGenerateNewRun "ref" [] 1 "Run #1" 0 1 { runs := [], activeRunId := none }
      = ({ runs := [], activeRunId := none }, []) ∧
    GenRoute.generatePOST (.str "nanobanana-v1") (.str "p") (.str "pid") .null
        (.row (.str "")) (fun _ => none) true true .null [] true (.fetchOk "image/png")
        true 200 .null
      = (some (.errRes (.str "No image_url found for product") none 500), 0) := by
  constructor
  · exact (c7_precondition_paths "ref" [] 1 "Run #1" 0 1
      { runs := [], activeRunId := none } (.str "nanobanana-v1") (.str "p") (.str "pid")
      .null (.row (.str "")) (fun _ => none) true true .null [] true
      (.fetchOk "image/png") true 200 .null "e" "m").1 (Or.inr rfl)
  · exact (c7_precondition_paths "ref" [] 1 "Run #1" 0 1
      { runs := [], activeRunId := none } (.str "nanobanana-v1") (.str "p") (.str "pid")
      .null (.row (.str "")) (fun _ => none) true true .null [] true
      (.fetchOk "image/png") true 200 .null "No image_url found for product" "m").2.1
      rfl rfl (by exact ((c7_precondition_paths "ref" [] 1 "Run #1" 0 1
        { runs := [], activeRunId := none } (.str "nanobanana-v1") (.str "p")
        (.str "pid") .null (.row (.str "")) (fun _ => none) true true .null [] true
        (.fetchOk "image/png") true 200 .null "No image_url found for product" "m").2.2
        rfl rfl).1)

end Outlight
